import Mathlib

/-!
Shallow embedding of the Domain Classification & Requirement Synthesis Engine
of the BA-Assistant-Tool repository (the generation engine listed in
`SOLUTION_FRONTEND_FIX.md`, the authoritative frontend implementation).

JavaScript strings are modelled as Lean `String`; the JS string methods used by
the source (`toLowerCase`, `includes`, `split`, `trim`, `startsWith`,
`replace(/\n/g, ...)`, `padStart`) are embedded as list-of-character functions
so that every definition evaluates inside the kernel.  `console.log` calls are
side effects with no influence on any return value and are omitted.
-/

namespace BA

/-- JS `String.prototype.toLowerCase` (ASCII case mapping, as used by the source). -/
def jsToLower (s : String) : String := String.mk (s.data.map Char.toLower)

/-- JS `String.prototype.toUpperCase`. -/
def jsToUpper (s : String) : String := String.mk (s.data.map Char.toUpper)

/-- JS `String.prototype.trim`. -/
def jsTrim (s : String) : String :=
  String.mk (((s.data.dropWhile Char.isWhitespace).reverse.dropWhile Char.isWhitespace).reverse)

/-- Helper for substring containment over character lists. -/
def subAux (needle : List Char) : List Char → Bool
  | [] => needle.isEmpty
  | c :: rest => needle.isPrefixOf (c :: rest) || subAux needle rest

/-- JS `hay.includes(needle)`: substring containment. -/
def incl (hay needle : String) : Bool := subAux needle.data hay.data

/-- Split a character list at every occurrence of a character (JS `split` with a
one-character separator). -/
def splitChar (c : Char) : List Char → List (List Char)
  | [] => [[]]
  | ch :: rest =>
    let r := splitChar c rest
    if ch = c then [] :: r
    else
      match r with
      | [] => [[ch]]
      | h :: t => (ch :: h) :: t

/-- JS `s.split(c)` for a one-character separator. -/
def jsSplit (s : String) (c : Char) : List String := (splitChar c s.data).map String.mk

/-- Replace every occurrence of a character by a replacement string. -/
def replChar (c : Char) (rep : List Char) : List Char → List Char
  | [] => []
  | ch :: rest => if ch = c then rep ++ replChar c rep rest else ch :: replChar c rep rest

/-- JS `s.replace(/<c>/g, rep)` for a one-character pattern. -/
def jsReplaceAll (s : String) (c : Char) (rep : String) : String :=
  String.mk (replChar c rep.data s.data)

/-- JS `s.startsWith(p)`. -/
def jsStartsWith (s p : String) : Bool := p.data.isPrefixOf s.data

/-- JS `String(n).padStart(2, '0')`. -/
def padStart2 (n : Nat) : String :=
  let s := toString n
  if s.length < 2 then "0" ++ s else s

/-- First-occurrence-preserving deduplication (JS `[...new Set(l)]`), with an
accumulator of already seen elements. -/
def dedupFirstAux [BEq α] (seen : List α) : List α → List α
  | [] => []
  | h :: t => if seen.contains h then dedupFirstAux seen t else h :: dedupFirstAux (h :: seen) t

/-- JS `[...new Set(l)]`: keep the first occurrence of every element. -/
def dedupFirst [BEq α] (l : List α) : List α := dedupFirstAux [] l

/-!  ## Data model (the record shapes the engine creates) -/

/-- A requirement extracted from BRD text (`extractRequirementsFromBrd` pushes
objects of this shape). -/
structure Req where
  text : String
  epicId : String
  epicTitle : String
  priority : String
  isDetailed : Bool
deriving DecidableEq

/-- An Epic as built by `convertRequirementsToEpics` / `getDefaultEpicsForDomain`. -/
structure Epic where
  id : String
  title : String
  description : String
  businessValue : String
  acceptanceCriteria : List String
  functionalRequirements : List String
  priority : String
deriving DecidableEq

/-- A story group produced by `groupRequirementsIntoStories`. -/
structure StoryGroup where
  action : String
  requirements : List String
  focus : String
deriving DecidableEq

/-- A user story as built by `generateUserStoriesFromRequirements`. -/
structure UserStory where
  id : String
  title : String
  asA : String
  iWant : String
  soThat : String
  acceptanceCriteria : List String
  validationCriteria : List String
  priority : String
  storyPoints : Nat
  epicId : String
deriving DecidableEq

/-- The free-text input fields consumed by the BRD generator
(`brdInputs` in the source). -/
structure BrdInputs where
  briefRequirements : String
  requirements : String
  scope : String
  objectives : String
  budget : String
  assumptions : String
  constraints : String
deriving DecidableEq

/-!  ## Domain Classifier: `detectBusinessDomain` -/

/-- Keyword set for the financial/banking domain (`detectBusinessDomain`). -/
def financialKeywords : List String :=
  ["bank", "banking", "finance", "financial", "account", "transaction", "payment", "credit",
   "debit", "loan", "invoice", "billing", "accounting", "journal", "ledger", "reconciliation",
   "audit", "compliance", "regulatory", "gl", "p&l", "balance sheet", "cash flow", "revenue",
   "expense", "asset", "liability", "equity"]

/-- Keyword set for the marketing domain (`detectBusinessDomain`). -/
def marketingKeywords : List String :=
  ["marketing", "campaign", "email", "customer", "lead", "prospect", "automation", "crm",
   "sales", "communication", "newsletter", "promotion", "advertising", "brand", "social media",
   "engagement", "conversion", "funnel", "roi", "analytics", "tracking", "segment",
   "target audience", "personalization"]

/-- Keyword set for the healthcare domain (`detectBusinessDomain`). -/
def healthcareKeywords : List String :=
  ["health", "healthcare", "patient", "medical", "hospital", "clinic", "doctor", "nurse",
   "treatment", "diagnosis", "medication", "prescription", "hipaa", "ehr", "emr", "appointment",
   "billing", "insurance", "claim"]

/-- Keyword set for the e-commerce domain (`detectBusinessDomain`). -/
def ecommerceKeywords : List String :=
  ["ecommerce", "e-commerce", "online store", "shopping", "cart", "checkout", "product",
   "inventory", "order", "shipping", "payment gateway", "catalog", "customer", "purchase",
   "retail", "marketplace"]

/-- `keywords.filter(keyword => content.includes(keyword)).length`. -/
def keywordScore (content : String) (keywords : List String) : Nat :=
  (keywords.filter (fun k => incl content k)).length

/-- The combined lower-cased content `detectBusinessDomain` scores:
`[project, briefRequirements, requirements, scope, objectives, assumptions,
constraints].join(" ").toLowerCase()`. -/
def combinedContent (inputs : BrdInputs) (project : String) : String :=
  jsToLower (String.intercalate " "
    [project, inputs.briefRequirements, inputs.requirements, inputs.scope,
     inputs.objectives, inputs.assumptions, inputs.constraints])

/-- The `scores` array of `detectBusinessDomain`, in its literal order. -/
def dbScores (inputs : BrdInputs) (project : String) : List (String × Nat) :=
  let c := combinedContent inputs project
  [("marketing", keywordScore c marketingKeywords),
   ("financial", keywordScore c financialKeywords),
   ("healthcare", keywordScore c healthcareKeywords),
   ("ecommerce", keywordScore c ecommerceKeywords)]

/-- JS `scores.reduce((max, current) => current.score > max.score ? current : max)`:
a fold whose initial accumulator is the first array element. -/
def reduceTop (first : String × Nat) (rest : List (String × Nat)) : String × Nat :=
  rest.foldl (fun acc cur => if cur.2 > acc.2 then cur else acc) first

/-- `detectBusinessDomain(inputs, project)`: score the combined content against the
four keyword sets, take the reduce-winner, return it if its score is at least 2,
otherwise `'generic'`. -/
def detectBusinessDomain (inputs : BrdInputs) (project : String) : String :=
  match dbScores inputs project with
  | [] => "generic"
  | first :: rest =>
    let topDomain := reduceTop first rest
    if topDomain.2 ≥ 2 then topDomain.1 else "generic"

/-!  ## Domain Classifier: `detectDomainFromBrdText` -/

/-- The telecom keyword set of the `domainKeywords` table of
`detectDomainFromBrdText`. -/
def telecomKw : List String :=
  ["telecom", "telecommunication", "sim", "esim", "mnp", "ocs", "billing", "charging", "kyc",
   "activation", "provisioning", "hlr", "hss", "udm", "pcf", "trai", "dot", "carrier",
   "subscriber", "msisdn", "imsi", "network", "tariff", "plan", "postpaid", "prepaid",
   "roaming", "sms", "data", "voice", "bss", "oss", "revenue assurance", "dunning",
   "mediation"]

/-- The airline keyword set of the `domainKeywords` table. -/
def airlineKw : List String :=
  ["flight", "airline", "aviation", "passenger", "booking", "pnr", "ticket", "fare", "seat",
   "baggage", "airport", "gds", "iata", "aircraft", "departure", "arrival", "ancillary",
   "itinerary", "check-in", "boarding"]

/-- The financial keyword set of the `domainKeywords` table. -/
def financialKw : List String :=
  ["investment", "portfolio", "trading", "finance", "banking", "fund", "asset", "equity",
   "debt", "risk", "compliance", "audit", "revenue", "profit", "budget", "cost", "accounting",
   "transaction"]

/-- The healthcare keyword set of the `domainKeywords` table. -/
def healthcareKw : List String :=
  ["patient", "medical", "clinical", "diagnosis", "treatment", "healthcare", "hospital",
   "doctor", "nurse", "prescription", "hipaa", "medical record", "clinical"]

/-- The e-commerce keyword set of the `domainKeywords` table. -/
def ecommerceKw : List String :=
  ["product", "cart", "checkout", "payment", "order", "inventory", "shipping", "customer",
   "ecommerce", "online store", "marketplace", "catalog"]

/-- The marketing keyword set of the `domainKeywords` table. -/
def marketingKw : List String :=
  ["campaign", "brand", "customer", "lead", "conversion", "engagement", "social media",
   "advertising", "promotion", "analytics", "roi", "ctr", "cpc", "segment"]

/-- The `domainKeywords` table of `detectDomainFromBrdText`, in key order. -/
def domainKeywordTable : List (String × List String) :=
  [("telecom", telecomKw), ("airline", airlineKw), ("financial", financialKw),
   ("healthcare", healthcareKw), ("ecommerce", ecommerceKw), ("marketing", marketingKw)]

/-- The `forEach` loop of `detectDomainFromBrdText`: running
`(maxScore, detectedDomain)` state, updated when a domain scores strictly
higher, starting from `(0, 'generic')`. -/
def detectRun (pairs : List (String × Nat)) : Nat × String :=
  pairs.foldl (fun acc p => if p.2 > acc.1 then (p.2, p.1) else acc) (0, "generic")

/-- `detectDomainFromBrdText(brdText)`. -/
def detectDomainFromBrdText (brdText : String) : String :=
  let text := jsToLower brdText
  (detectRun (domainKeywordTable.map (fun dk => (dk.1, keywordScore text dk.2)))).2

/-!  ## Requirement Extractor: `extractRequirementsFromBrd` -/

/-- `determinePriority(text)`. -/
def determinePriority (text : String) : String :=
  if incl (jsToLower text) "must" || incl (jsToLower text) "critical" then "High"
  else if incl (jsToLower text) "should" || incl (jsToLower text) "important" then "Medium"
  else "Low"

/-- Longest run of ASCII digits at the front of a character list (the `\d+` part
of the `EPIC-\d+` regex). -/
def digitRun : List Char → List Char
  | [] => []
  | c :: rest => if c.isDigit then c :: digitRun rest else []

/-- `line.match(/EPIC-\d+/)`: the first substring of the form `EPIC-` followed by
one or more digits, if any. -/
def epicMatch0 : List Char → Option String
  | [] => none
  | c :: rest =>
    if "EPIC-".data.isPrefixOf (c :: rest) then
      match (c :: rest).drop 5 with
      | d :: ds =>
        if d.isDigit then some ("EPIC-" ++ String.mk (digitRun (d :: ds)))
        else epicMatch0 rest
      | [] => epicMatch0 rest
    else epicMatch0 rest

/-- `line.match(/EPIC-\d+/)` on a string. -/
def epicMatch (line : String) : Option String := epicMatch0 line.data

/-- `line.split(':')[1]?.trim() || 'Core System'`. -/
def epicTitleOfLine (line : String) : String :=
  match (jsSplit line ':').get? 1 with
  | none => "Core System"
  | some s => if jsTrim s = "" then "Core System" else jsTrim s

/-- Strip a single leading bullet marker and the whitespace after it
(JS `line.replace(/^[•\-\*]\s*/, '')`). -/
def stripBulletMark (s : String) : String :=
  match s.data with
  | [] => s
  | c :: rest =>
    if c = '•' || c = '-' || c = '*' then String.mk (rest.dropWhile Char.isWhitespace) else s

/-- The per-line loop of `extractRequirementsFromBrd`, with the running parse
state `(currentEpicId, currentEpicTitle, inRequirementsSection)`. -/
def extractLoop : List String → String → String → Bool → List Req
  | [], _, _, _ => []
  | line :: rest, curId, curTitle, inReq =>
    match epicMatch line with
    | some mId => extractLoop rest mId (epicTitleOfLine line) false
    | none =>
      if incl (jsToLower line) "requirements:" && curId ≠ "" then
        extractLoop rest curId curTitle true
      else if inReq && (jsStartsWith line "•" || jsStartsWith line "-" || jsStartsWith line "*") then
        if (jsTrim (stripBulletMark line)).length > 10 then
          { text := jsTrim (stripBulletMark line), epicId := curId, epicTitle := curTitle,
            priority := determinePriority (jsTrim (stripBulletMark line)), isDetailed := true }
            :: extractLoop rest curId curTitle inReq
        else extractLoop rest curId curTitle inReq
      else extractLoop rest curId curTitle inReq

/-- `extractRequirementsFromBrd(brdText)`. -/
def extractRequirementsFromBrd (brdText : String) : List Req :=
  let lines := ((jsSplit brdText '\n').map jsTrim).filter (fun l => l ≠ "")
  extractLoop lines "" "" false

/-!  ## EPIC Synthesizer: `convertRequirementsToEpics` and helpers -/

/-- `generateMeaningfulEpicTitle(requirements, domain)` (called with requirement
objects; the joined lower-cased text drives a first-match keyword lookup). -/
def generateMeaningfulEpicTitle (requirements : List Req) (domain : String) : String :=
  let reqText := jsToLower (String.intercalate " " (requirements.map (·.text)))
  if domain = "telecom" then
    if incl reqText "lead to order" || incl reqText "catalog" || incl reqText "offer" ||
       incl reqText "eligibility" || incl reqText "credit check" then
      "Product Catalog & Order Management"
    else if incl reqText "kyc" || incl reqText "activation" || incl reqText "sim" ||
       incl reqText "esim" || incl reqText "mnp" || incl reqText "provisioning" then
      "Customer Onboarding & SIM Activation"
    else if incl reqText "charging" || incl reqText "billing" || incl reqText "rating" ||
       incl reqText "ocs" || incl reqText "invoicing" || incl reqText "dunning" then
      "Charging & Billing Management"
    else if incl reqText "care" || incl reqText "assurance" || incl reqText "tickets" ||
       incl reqText "diagnostics" || incl reqText "outages" || incl reqText "knowledge base" then
      "Customer Care & Service Assurance"
    else if incl reqText "payment" || incl reqText "collection" || incl reqText "cards" ||
       incl reqText "upi" || incl reqText "autopay" || incl reqText "refund" then
      "Payment & Collection Management"
    else if incl reqText "partner" || incl reqText "retailer" || incl reqText "commission" ||
       incl reqText "inventory" || incl reqText "sales reporting" then
      "Partner & Channel Management"
    else if incl reqText "analytics" || incl reqText "compliance" || incl reqText "usage" ||
       incl reqText "churn" || incl reqText "revenue" || incl reqText "audit" ||
       incl reqText "regulatory" then
      "Analytics & Regulatory Compliance"
    else generateMeaningfulEpicTitleGeneric reqText
  else if domain = "financial" then
    if incl reqText "intake" || incl reqText "onboard" || incl reqText "digital" ||
       incl reqText "form" then
      "Investor Onboarding & Digital Intake"
    else if incl reqText "kyc" || incl reqText "aml" || incl reqText "screening" ||
       incl reqText "compliance" then
      "Compliance & Risk Management"
    else if incl reqText "sign" || incl reqText "document" || incl reqText "stamp" ||
       incl reqText "version" then
      "Document Management & E-Signature"
    else if incl reqText "payment" || incl reqText "bank" || incl reqText "funding" ||
       incl reqText "penny" then
      "Payment & Fund Management"
    else if incl reqText "tracking" || incl reqText "notification" ||
       incl reqText "communication" || incl reqText "export" then
      "Communication & Integration Management"
    else generateMeaningfulEpicTitleGeneric reqText
  else if domain = "airline" then
    if incl reqText "search" || incl reqText "shopping" || incl reqText "availability" then
      "Flight Search & Shopping"
    else if incl reqText "booking" || incl reqText "pnr" || incl reqText "reservation" then
      "Booking & Reservation Management"
    else if incl reqText "payment" || incl reqText "ticket" || incl reqText "billing" then
      "Payment & Ticketing"
    else generateMeaningfulEpicTitleGeneric reqText
  else generateMeaningfulEpicTitleGeneric reqText
where
  /-- The generic keyword-to-title rules at the bottom of
  `generateMeaningfulEpicTitle`. -/
  generateMeaningfulEpicTitleGeneric (reqText : String) : String :=
    if incl reqText "user" || incl reqText "account" || incl reqText "auth" then
      "User Management & Authentication"
    else if incl reqText "data" || incl reqText "process" || incl reqText "manage" then
      "Data Processing & Management"
    else if incl reqText "report" || incl reqText "analytic" || incl reqText "track" then
      "Reporting & Analytics"
    else "Core Business Functionality"

/-- `generateEpicDescription(requirements, title, domain)`. -/
def generateEpicDescription (requirements : List Req) (title domain : String) : String :=
  let mainFunctions := String.intercalate ", " ((requirements.take 3).map (fun r => jsToLower r.text))
  "Implement " ++ jsToLower title ++ " including " ++ mainFunctions ++ " with " ++ domain ++
    "-specific business logic and industry compliance"

/-- `generateEpicAcceptanceCriteria(requirements, domain)`. -/
def generateEpicAcceptanceCriteria (requirements : List Req) (domain : String) : List String :=
  let criteria := (requirements.take 3).foldl (fun acc r =>
    let reqLower := jsToLower r.text
    let acc := if incl reqLower "intake" || incl reqLower "form" then
        acc ++ ["Digital forms are intuitive and guide users through the process"] else acc
    let acc := if incl reqLower "validation" || incl reqLower "verify" then
        acc ++ ["Real-time validation provides immediate feedback to users"] else acc
    let acc := if incl reqLower "document" || incl reqLower "upload" then
        acc ++ ["Document upload and management supports required file formats"] else acc
    let acc := if incl reqLower "workflow" || incl reqLower "approval" then
        acc ++ ["Approval workflows enforce business rules and compliance"] else acc
    acc) []
  let criteria := if domain = "financial" then
      criteria ++ ["All functionality complies with financial regulations (SEC, FINRA)",
                   "Audit trails are maintained for regulatory compliance"]
    else criteria
  let criteria := criteria ++ ["Performance meets industry standards",
                               "Security and data protection requirements are satisfied"]
  criteria.take 4

/-- `getDomainBusinessValue(feature, domain)` (`domainValues` holds only the
airline table; every other lookup falls to the template default). -/
def getDomainBusinessValue (feature domain : String) : String :=
  let fallbackValue := "Enables efficient " ++ jsToLower feature ++
    " operations and improves " ++ domain ++ " business processes"
  if domain = "airline" then
    if feature = "Flight Search & Shopping" then
      "Enables passengers to find and compare flights, increasing conversion rates and revenue"
    else if feature = "Booking & Reservation Management" then
      "Streamlines reservation process, reducing abandonment and improving customer experience"
    else if feature = "Payment & Ticketing" then
      "Ensures secure payment processing and instant ticket issuance, reducing fraud and improving cash flow"
    else if feature = "Ancillary Services" then
      "Maximizes ancillary revenue through upselling services like seats, bags, and meals"
    else if feature = "Post-Booking Services" then
      "Reduces call center load and improves customer satisfaction through self-service options"
    else if feature = "Operations & Administration" then
      "Provides operational efficiency and business intelligence for airline staff"
    else fallbackValue
  else fallbackValue

/-- `getDefaultEpicsForDomain(domain)`: the default Epic list used when no
requirements were extracted. -/
def getDefaultEpicsForDomain (domain : String) : List Epic :=
  if domain = "airline" then
    [{ id := "EPIC-01",
       title := "Flight Search & Shopping",
       description := "Comprehensive flight search and shopping experience with multi-source integration",
       businessValue := "Enables passengers to find and compare flights, increasing conversion rates",
       acceptanceCriteria :=
         ["Multi-city, round-trip, and one-way search capabilities",
          "Real-time fare and availability from GDS/NDC sources",
          "Advanced filtering and sorting options",
          "Branded fares and ancillary product display"],
       functionalRequirements :=
         ["Flight search functionality", "Fare comparison and display", "Filter and sort capabilities"],
       priority := "High" }]
  else
    [{ id := "EPIC-01",
       title := "Core System Requirements",
       description := "Basic system functionality requirements",
       businessValue := "Provides core system capabilities",
       acceptanceCriteria := ["System functionality implemented", "Basic requirements met"],
       functionalRequirements := ["Core system functionality"],
       priority := "Medium" }]

/-- `req.epicId || 'EPIC-01'`: the key under which a requirement is grouped. -/
def epicIdKey (r : Req) : String := if r.epicId = "" then "EPIC-01" else r.epicId

/-- The keys of the `epicGroups` object in first-insertion order. -/
def epicGroupKeys (reqs : List Req) : List String := dedupFirst (reqs.map epicIdKey)

/-- The requirement list stored under one `epicGroups` key (push order). -/
def epicGroup (reqs : List Req) (key : String) : List Req :=
  reqs.filter (fun r => epicIdKey r = key)

/-- `convertRequirementsToEpics(requirements, domain)`. -/
def convertRequirementsToEpics (reqs : List Req) (domain : String) : List Epic :=
  if reqs.length = 0 then getDefaultEpicsForDomain domain
  else
    (epicGroupKeys reqs).map (fun epicId =>
      let rs := epicGroup reqs epicId
      let epicTitle := generateMeaningfulEpicTitle rs domain
      { id := epicId,
        title := epicTitle,
        description := generateEpicDescription rs epicTitle domain,
        businessValue := getDomainBusinessValue epicTitle domain,
        acceptanceCriteria := generateEpicAcceptanceCriteria rs domain,
        functionalRequirements := rs.map (·.text),
        priority := if rs.any (fun r => r.priority = "High") then "High" else "Medium" })

/-!  ## User Story Generator: grouping and persona resolution -/

/-- The per-requirement dispatch of the financial Onboarding/Intake branch of
`groupRequirementsIntoStories` (each requirement adds at most one group). -/
def finOnboardStep (req : String) : List StoryGroup :=
  if incl (jsToLower req) "digital intake" || incl (jsToLower req) "form" then
    [{ action := "Complete Digital Intake", requirements := [req], focus := "intake" }]
  else if incl (jsToLower req) "eligibility" || incl (jsToLower req) "accreditation" then
    [{ action := "Verify Eligibility", requirements := [req], focus := "verification" }]
  else if incl (jsToLower req) "document upload" then
    [{ action := "Upload Documents", requirements := [req], focus := "documentation" }]
  else []

/-- The per-requirement dispatch of the financial Compliance branch of
`groupRequirementsIntoStories`. -/
def finComplianceStep (req : String) : List StoryGroup :=
  if incl (jsToLower req) "kyc" || incl (jsToLower req) "aml" then
    [{ action := "Complete KYC/AML Screening", requirements := [req], focus := "compliance" }]
  else if incl (jsToLower req) "screening" || incl (jsToLower req) "risk scoring" then
    [{ action := "Perform Risk Assessment", requirements := [req], focus := "risk" }]
  else []

/-- The domain-specific (financial) grouping pass of
`groupRequirementsIntoStories`; every other domain contributes no group here. -/
def finGroups (requirements : List String) (epicTitle domain : String) : List StoryGroup :=
  if domain = "financial" then
    if incl epicTitle "Onboarding" || incl epicTitle "Intake" then
      requirements.foldl (fun gs req => gs ++ finOnboardStep req) []
    else if incl epicTitle "Compliance" then
      requirements.foldl (fun gs req => gs ++ finComplianceStep req) []
    else []
  else []

/-- `groupRequirementsIntoStories(requirements, epicTitle, domain)`. -/
def groupRequirementsIntoStories (requirements : List String) (epicTitle domain : String) :
    List StoryGroup :=
  if (finGroups requirements epicTitle domain).length = 0 then
    let mid := (requirements.length + 1) / 2
    if requirements.length > 1 then
      [{ action := "Manage Primary Functions", requirements := requirements.take mid,
         focus := "primary" },
       { action := "Handle Secondary Operations", requirements := requirements.drop mid,
         focus := "secondary" }]
    else
      [{ action := "Execute Core Functionality", requirements := requirements, focus := "core" }]
  else finGroups requirements epicTitle domain

/-- The `defaultPersonas` table of `getAppropriatePersona`. -/
def defaultPersonas : List (String × List String) :=
  [("telecom", ["Customer", "Customer Service Representative", "Technical Support Agent", "Billing Specialist"]),
   ("airline", ["Passenger", "Check-in Agent", "Operations Manager", "Cabin Crew"]),
   ("financial", ["Investor", "Portfolio Manager", "Compliance Officer", "Trading Specialist"]),
   ("healthcare", ["Patient", "Physician", "Clinical Nurse", "Medical Administrator"]),
   ("ecommerce", ["Customer", "Store Manager", "Product Manager", "Fulfillment Specialist"]),
   ("marketing", ["Marketing Manager", "Marketing Analyst", "Content Manager", "Email Marketing Specialist"])]

/-- Telecom branch of `getAppropriatePersona` (first-match rules). -/
def personaTelecom (reqText : String) : Option String :=
  if incl reqText "catalog" || incl reqText "offer" || incl reqText "order" ||
     incl reqText "eligibility" then some "Customer"
  else if incl reqText "kyc" || incl reqText "activation" || incl reqText "provisioning" ||
     incl reqText "sim" then some "Customer Service Representative"
  else if incl reqText "billing" || incl reqText "charging" || incl reqText "payment" ||
     incl reqText "collection" then some "Billing Specialist"
  else if incl reqText "care" || incl reqText "ticket" || incl reqText "diagnostic" ||
     incl reqText "trouble" then some "Technical Support Agent"
  else if incl reqText "partner" || incl reqText "retailer" || incl reqText "commission" ||
     incl reqText "sales" then some "Channel Partner"
  else if incl reqText "analytics" || incl reqText "compliance" || incl reqText "audit" ||
     incl reqText "regulatory" then some "Business Analyst"
  else none

/-- Financial branch of `getAppropriatePersona`. -/
def personaFinancial (reqText : String) : Option String :=
  if incl reqText "investor" || incl reqText "individual" || incl reqText "intake" then
    some "Investor"
  else if incl reqText "reviewer" || incl reqText "approval" || incl reqText "compliance" then
    some "Compliance Officer"
  else if incl reqText "admin" || incl reqText "manage" || incl reqText "workflow" then
    some "Fund Administrator"
  else if incl reqText "portfolio" || incl reqText "investment" || incl reqText "allocation" then
    some "Portfolio Manager"
  else if incl reqText "trading" || incl reqText "execution" || incl reqText "settlement" then
    some "Trading Specialist"
  else if incl reqText "risk" || incl reqText "assessment" || incl reqText "monitoring" then
    some "Risk Analyst"
  else none

/-- Airline branch of `getAppropriatePersona`. -/
def personaAirline (reqText : String) : Option String :=
  if incl reqText "passenger" || incl reqText "booking" || incl reqText "flight" ||
     incl reqText "travel" then some "Passenger"
  else if incl reqText "check-in" || incl reqText "counter" || incl reqText "boarding" then
    some "Check-in Agent"
  else if incl reqText "operations" || incl reqText "schedule" || incl reqText "disruption" then
    some "Operations Manager"
  else if incl reqText "crew" || incl reqText "cabin" || incl reqText "flight attendant" then
    some "Cabin Crew"
  else if incl reqText "baggage" || incl reqText "handling" || incl reqText "cargo" then
    some "Baggage Handler"
  else if incl reqText "maintenance" || incl reqText "aircraft" || incl reqText "safety" then
    some "Maintenance Engineer"
  else none

/-- Healthcare branch of `getAppropriatePersona`. -/
def personaHealthcare (reqText : String) : Option String :=
  if incl reqText "patient" || incl reqText "individual" || incl reqText "appointment" then
    some "Patient"
  else if incl reqText "doctor" || incl reqText "physician" || incl reqText "diagnosis" then
    some "Physician"
  else if incl reqText "nurse" || incl reqText "clinical" || incl reqText "care" then
    some "Clinical Nurse"
  else if incl reqText "admin" || incl reqText "receptionist" || incl reqText "registration" then
    some "Medical Administrator"
  else if incl reqText "prescription" || incl reqText "medication" || incl reqText "pharmacy" then
    some "Pharmacist"
  else if incl reqText "insurance" || incl reqText "claim" || incl reqText "coverage" then
    some "Insurance Coordinator"
  else none

/-- E-commerce branch of `getAppropriatePersona`. -/
def personaEcommerce (reqText : String) : Option String :=
  if incl reqText "customer" || incl reqText "shopper" || incl reqText "browse" ||
     incl reqText "purchase" then some "Customer"
  else if incl reqText "merchant" || incl reqText "seller" || incl reqText "vendor" then
    some "Merchant"
  else if incl reqText "admin" || incl reqText "store" || incl reqText "manager" then
    some "Store Manager"
  else if incl reqText "inventory" || incl reqText "product" || incl reqText "catalog" then
    some "Product Manager"
  else if incl reqText "order" || incl reqText "fulfillment" || incl reqText "shipping" then
    some "Fulfillment Specialist"
  else if incl reqText "support" || incl reqText "service" || incl reqText "help" then
    some "Customer Service Representative"
  else none

/-- Marketing branch of `getAppropriatePersona`. -/
def personaMarketing (reqText : String) : Option String :=
  if incl reqText "marketer" || incl reqText "manager" || incl reqText "campaign" then
    some "Marketing Manager"
  else if incl reqText "analyst" || incl reqText "data" || incl reqText "analytics" then
    some "Marketing Analyst"
  else if incl reqText "customer" || incl reqText "prospect" || incl reqText "lead" then
    some "Prospective Customer"
  else if incl reqText "content" || incl reqText "creative" || incl reqText "copy" then
    some "Content Manager"
  else if incl reqText "email" || incl reqText "automation" || incl reqText "workflow" then
    some "Email Marketing Specialist"
  else if incl reqText "social" || incl reqText "media" || incl reqText "engagement" then
    some "Social Media Manager"
  else none

/-- `getAppropriatePersona(requirements, domain)`: domain-specific first-match
rules, then `defaultPersonas[domain]?.[0] || 'User'`. -/
def getAppropriatePersona (requirements : List String) (domain : String) : String :=
  let reqText := jsToLower (String.intercalate " " requirements)
  let hit : Option String :=
    if domain = "telecom" then personaTelecom reqText
    else if domain = "financial" then personaFinancial reqText
    else if domain = "airline" then personaAirline reqText
    else if domain = "healthcare" then personaHealthcare reqText
    else if domain = "ecommerce" then personaEcommerce reqText
    else if domain = "marketing" then personaMarketing reqText
    else none
  match hit with
  | some p => p
  | none => (((defaultPersonas.lookup domain).bind (fun l => l.head?)).getD "User")

/-- `generateStoryTitle(storyGroup, epicTitle)`. -/
def generateStoryTitle (storyGroup : StoryGroup) (epicTitle : String) : String :=
  epicTitle ++ " - " ++ storyGroup.action

/-- `generateStoryWant(requirements)`: substring-triggered templates keyed on the
first requirement. The source indexes `requirements[0]` directly (a JS
exception on an empty array; every caller passes a non-empty group), embedded
here with an empty-string default for the head. -/
def generateStoryWant (requirements : List String) : String :=
  let firstReq := jsToLower (requirements.headD "")
  if incl firstReq "catalog" || incl firstReq "offer" then
    "browse product catalog and view available offers"
  else if incl firstReq "eligibility" || incl firstReq "credit check" then
    "check customer eligibility and perform credit verification"
  else if incl firstReq "kyc" || incl firstReq "activation" then
    "complete KYC verification and activate services"
  else if incl firstReq "sim" || incl firstReq "esim" || incl firstReq "provisioning" then
    "provision and activate SIM/eSIM with seamless setup"
  else if incl firstReq "mnp" || incl firstReq "portability" then
    "process mobile number portability requests efficiently"
  else if incl firstReq "charging" || incl firstReq "billing" || incl firstReq "rating" then
    "manage real-time charging and accurate billing processes"
  else if incl firstReq "care" || incl firstReq "ticket" || incl firstReq "diagnostic" then
    "handle customer care requests and resolve technical issues"
  else if incl firstReq "payment" || incl firstReq "collection" then
    "process payments and manage collections efficiently"
  else if incl firstReq "partner" || incl firstReq "retailer" then
    "manage partner relationships and channel operations"
  else if incl firstReq "analytics" || incl firstReq "reporting" then
    "generate analytics and compliance reports"
  else if incl firstReq "digital intake" || incl firstReq "form" then
    "complete digital intake forms with guided assistance"
  else if incl firstReq "document upload" then
    "upload required documents with real-time validation"
  else if incl firstReq "kyc" || incl firstReq "screening" then
    "complete KYC/AML screening and compliance checks"
  else if incl firstReq "payment" || incl firstReq "funding" then
    "process payments and funding transactions securely"
  else if incl firstReq "sign" || incl firstReq "stamp" then
    "electronically sign documents and manage versions"
  else
    "implement " ++ stripBulletMark ((jsSplit firstReq '.').headD "")

/-- `generateStorySoThat(requirements, domain)`. -/
def generateStorySoThat (requirements : List String) (domain : String) : String :=
  let reqText := jsToLower (String.intercalate " " requirements)
  if domain = "telecom" then
    if incl reqText "catalog" || incl reqText "offer" || incl reqText "order" then
      "I can easily discover and subscribe to relevant services"
    else if incl reqText "kyc" || incl reqText "activation" || incl reqText "provisioning" then
      "I can quickly onboard and start using telecom services"
    else if incl reqText "billing" || incl reqText "charging" || incl reqText "rating" then
      "I can ensure accurate and transparent billing processes"
    else if incl reqText "care" || incl reqText "ticket" || incl reqText "support" then
      "I can receive timely and effective customer support"
    else if incl reqText "payment" || incl reqText "collection" then
      "I can make payments conveniently and maintain service continuity"
    else if incl reqText "partner" || incl reqText "channel" || incl reqText "retailer" then
      "I can effectively manage and grow channel partnerships"
    else if incl reqText "analytics" || incl reqText "compliance" || incl reqText "regulatory" then
      "I can make data-driven decisions and ensure regulatory compliance"
    else "I can accomplish my business objectives efficiently"
  else if domain = "financial" then
    if incl reqText "investor" || incl reqText "onboard" then
      "I can efficiently onboard and start investing"
    else if incl reqText "compliance" || incl reqText "kyc" then
      "I can ensure regulatory compliance and risk management"
    else if incl reqText "document" || incl reqText "sign" then
      "I can complete legal requirements securely"
    else if incl reqText "payment" || incl reqText "fund" then
      "I can process investments and manage funds"
    else "I can accomplish my business objectives efficiently"
  else "I can accomplish my business objectives efficiently"

/-- The per-requirement criteria contributions of
`generateStoryAcceptanceCriteria` (each matching trigger appends two fixed
sentences, in source order). -/
def storyCriteriaStep (req : String) : List String :=
  let reqLower := jsToLower req
  let c : List String := []
  let c := if incl reqLower "catalog" || incl reqLower "offer" then c ++
    ["Product catalog displays accurate pricing and feature information",
     "Offer eligibility rules are properly validated"] else c
  let c := if incl reqLower "kyc" || incl reqLower "verification" then c ++
    ["KYC verification completes within regulatory timeframes",
     "Identity validation meets telecom compliance standards"] else c
  let c := if incl reqLower "sim" || incl reqLower "esim" || incl reqLower "activation" then c ++
    ["SIM/eSIM provisioning completes successfully",
     "Service activation is verified and functional"] else c
  let c := if incl reqLower "mnp" || incl reqLower "portability" then c ++
    ["Number portability request is processed within TRAI timelines",
     "Customer communication is sent at each MNP milestone"] else c
  let c := if incl reqLower "billing" || incl reqLower "charging" || incl reqLower "rating" then c ++
    ["Real-time charging calculations are accurate",
     "Billing data is generated and validated correctly"] else c
  let c := if incl reqLower "payment" || incl reqLower "collection" then c ++
    ["Payment processing supports multiple methods securely",
     "Collection workflows handle failed payments appropriately"] else c
  let c := if incl reqLower "care" || incl reqLower "ticket" || incl reqLower "support" then c ++
    ["Customer support tickets are created and tracked properly",
     "Resolution workflows meet defined SLA requirements"] else c
  let c := if incl reqLower "partner" || incl reqLower "retailer" || incl reqLower "commission" then c ++
    ["Partner transactions are recorded and commission calculated",
     "Retailer portal provides accurate inventory and sales data"] else c
  let c := if incl reqLower "analytics" || incl reqLower "reporting" || incl reqLower "compliance" then c ++
    ["Reports generate accurate data within specified timeframes",
     "Regulatory compliance requirements are met and auditable"] else c
  let c := if incl reqLower "flight" || incl reqLower "booking" || incl reqLower "reservation" then c ++
    ["Flight bookings are confirmed with valid PNR generation",
     "Seat selection reflects real-time aircraft configuration"] else c
  let c := if incl reqLower "check-in" || incl reqLower "boarding" then c ++
    ["Check-in process completes within airline specified timeframes",
     "Boarding passes are generated with valid barcode data"] else c
  let c := if incl reqLower "baggage" || incl reqLower "ancillary" then c ++
    ["Baggage policies are enforced according to airline rules",
     "Ancillary services are priced and booked accurately"] else c
  let c := if incl reqLower "schedule" || incl reqLower "disruption" || incl reqLower "delay" then c ++
    ["Schedule changes are communicated to passengers immediately",
     "Disruption management follows IRROPS procedures"] else c
  let c := if incl reqLower "fare" || incl reqLower "pricing" then c ++
    ["Fare calculations include all taxes and fees correctly",
     "Price validation ensures competitive and accurate pricing"] else c
  let c := if incl reqLower "portfolio" || incl reqLower "investment" then c ++
    ["Portfolio allocations are calculated and displayed accurately",
     "Investment transactions are processed within market hours"] else c
  let c := if incl reqLower "risk" || incl reqLower "assessment" then c ++
    ["Risk calculations follow established financial models",
     "Risk tolerance assessment captures investor preferences"] else c
  let c := if incl reqLower "form" || incl reqLower "intake" then c ++
    ["Digital forms are completed with all required fields",
     "Form validation prevents submission of incomplete data"] else c
  let c := if incl reqLower "document" || incl reqLower "upload" then c ++
    ["Documents are uploaded and verified successfully",
     "Document storage complies with financial regulations"] else c
  let c := if incl reqLower "screening" || incl reqLower "check" || incl reqLower "compliance" then c ++
    ["All compliance checks are completed successfully",
     "Screening results are documented for audit purposes"] else c
  let c := if incl reqLower "workflow" || incl reqLower "approval" then c ++
    ["Approval workflows are followed correctly",
     "Workflow status is visible to all stakeholders"] else c
  let c := if incl reqLower "trading" || incl reqLower "execution" then c ++
    ["Trade execution occurs at best available price",
     "Trade confirmations are generated immediately"] else c
  let c := if incl reqLower "patient" || incl reqLower "medical record" then c ++
    ["Patient information is accurately captured and stored",
     "Medical records are accessible to authorized providers only"] else c
  let c := if incl reqLower "appointment" || incl reqLower "scheduling" then c ++
    ["Appointments are scheduled without conflicts",
     "Schedule changes are communicated to all parties"] else c
  let c := if incl reqLower "prescription" || incl reqLower "medication" then c ++
    ["Prescription validation checks for drug interactions",
     "Medication dosage calculations are clinically accurate"] else c
  let c := if incl reqLower "diagnosis" || incl reqLower "clinical" then c ++
    ["Clinical data supports evidence-based decision making",
     "Diagnostic codes follow ICD-10 standards"] else c
  let c := if incl reqLower "insurance" || incl reqLower "claim" then c ++
    ["Insurance verification occurs in real-time",
     "Claims are submitted with complete required documentation"] else c
  let c := if incl reqLower "consent" || incl reqLower "privacy" then c ++
    ["Patient consent is documented and verifiable",
     "Privacy controls comply with HIPAA requirements"] else c
  let c := if incl reqLower "product" || incl reqLower "catalog" then c ++
    ["Product information is accurate and up-to-date",
     "Product search returns relevant results quickly"] else c
  let c := if incl reqLower "cart" || incl reqLower "checkout" then c ++
    ["Shopping cart maintains items across sessions",
     "Checkout process is completed without errors"] else c
  let c := if incl reqLower "inventory" || incl reqLower "stock" then c ++
    ["Inventory levels are updated in real-time",
     "Stock availability is accurately displayed"] else c
  let c := if incl reqLower "order" || incl reqLower "fulfillment" then c ++
    ["Orders are processed and confirmed immediately",
     "Fulfillment status is tracked and communicated"] else c
  let c := if incl reqLower "shipping" || incl reqLower "delivery" then c ++
    ["Shipping calculations include all applicable fees",
     "Delivery tracking information is accurate and current"] else c
  let c := if incl reqLower "review" || incl reqLower "rating" then c ++
    ["Customer reviews are moderated and published appropriately",
     "Rating calculations reflect all customer feedback"] else c
  let c := if incl reqLower "recommendation" || incl reqLower "personalization" then c ++
    ["Product recommendations are relevant to customer preferences",
     "Personalization respects customer privacy settings"] else c
  let c := if incl reqLower "campaign" || incl reqLower "promotion" then c ++
    ["Marketing campaigns are deployed according to schedule",
     "Promotional offers are applied correctly at checkout"] else c
  let c := if incl reqLower "segment" || incl reqLower "audience" then c ++
    ["Customer segmentation criteria are applied accurately",
     "Audience targeting respects opt-out preferences"] else c
  let c := if incl reqLower "email" || incl reqLower "notification" then c ++
    ["Email deliverability rates meet industry standards",
     "Notification preferences are honored consistently"] else c
  let c := if incl reqLower "analytics" || incl reqLower "tracking" then c ++
    ["Analytics data is collected accurately and completely",
     "Tracking implementation complies with privacy regulations"] else c
  let c := if incl reqLower "lead" || incl reqLower "conversion" then c ++
    ["Lead capture forms collect all required information",
     "Conversion tracking attributes revenue to correct channels"] else c
  let c := if incl reqLower "social" || incl reqLower "engagement" then c ++
    ["Social media integration functions without errors",
     "Engagement metrics are calculated and reported accurately"] else c
  let c := if incl reqLower "ab test" || incl reqLower "experiment" then c ++
    ["A/B tests are statistically valid and conclusive",
     "Experimental results are documented and actionable"] else c
  c

/-- `generateStoryAcceptanceCriteria(requirements)`: collect triggered criteria,
add two smart defaults when nothing fired, always add the universal performance
criterion, deduplicate (first-seen order) and cap at 4. -/
def generateStoryAcceptanceCriteria (requirements : List String) : List String :=
  let criteria := requirements.foldl (fun acc req => acc ++ storyCriteriaStep req) []
  let criteria := if criteria.length = 0 then
      criteria ++ ["User can successfully complete the required functionality",
                   "System validates all inputs and provides feedback"]
    else criteria
  let criteria := criteria ++ ["Performance meets acceptable standards"]
  (dedupFirst criteria).take 4

/-- `calculateStoryPoints(requirements)`. -/
def calculateStoryPoints (requirements : List String) : Nat :=
  let complexity := jsToLower (String.intercalate " " requirements)
  if incl complexity "workflow" || incl complexity "integration" || incl complexity "screening" then 8
  else if incl complexity "validation" || incl complexity "approval" || incl complexity "document" then 5
  else 3

/-!  ## Validation Criteria Engine: `generateAIContextualValidation` -/

/-- The marketing/CRM persona block of `generateAIContextualValidation`
(entered when the persona mentions marketing/sales or the domain is
marketing; inner conditions return fixed five-item lists). -/
def aicvMarketing (domain context personaLower : String) : Option (List String) :=
  if incl personaLower "marketing" || incl personaLower "sales" || domain = "marketing" then
    if incl personaLower "content" && (incl context "course" || incl context "content") then
      some ["Course content must be validated for accuracy and educational standards",
            "Content version control must track changes and approval workflow",
            "Learning objectives must be measurable and aligned with curriculum",
            "Content accessibility must comply with WCAG 2.1 guidelines",
            "Course prerequisites must be enforced before enrollment"]
    else if incl personaLower "marketing manager" ||
        (incl context "classroom" || incl context "campaign") then
      some ["Live session scheduling must prevent resource conflicts",
            "Attendance tracking must be accurate and real-time",
            "Interactive features (polls, Q&A) must support concurrent users",
            "Recording quality must meet minimum resolution and audio standards",
            "Breakout group assignments must be randomly distributed and balanced"]
    else if incl personaLower "analyst" || incl context "analytics" || incl context "tracking" then
      some ["Learning progress tracking must capture detailed user interactions",
            "Recommendation algorithms must be based on learning patterns and preferences",
            "Certificate generation must validate course completion requirements",
            "Progress data must be exportable in standard reporting formats",
            "User onboarding flow must be optimized for conversion and retention"]
    else if incl context "lead" || incl context "capture" then
      some ["Lead capture forms must validate all required contact information fields",
            "Lead source attribution must be tracked accurately for campaign ROI",
            "Duplicate lead detection must prevent multiple entries for same contact",
            "Lead qualification scoring must be calculated consistently",
            "Lead routing to sales representatives must follow assignment rules"]
    else if incl context "opportunity" || incl context "pipeline" then
      some ["Opportunity stage progression must follow defined sales workflow rules",
            "Pipeline value calculations must include probability weighting by stage",
            "Opportunity close date forecasting must be realistic and data-driven",
            "Win/loss reason tracking must be mandatory for closed opportunities",
            "Opportunity team assignments must maintain proper access controls"]
    else if incl context "contact" || incl context "customer" then
      some ["Contact deduplication algorithms must prevent duplicate customer records",
            "Contact data synchronization must maintain referential integrity",
            "Customer communication preferences must be respected consistently",
            "Contact hierarchy relationships must be maintained accurately",
            "GDPR consent tracking must be documented for all customer interactions"]
    else none
  else none

/-- The healthcare block of `generateAIContextualValidation`. -/
def aicvHealthcare (domain context : String) : Option (List String) :=
  if domain = "healthcare" then
    if incl context "patient" || incl context "registration" then
      some ["Patient identity verification must prevent duplicate medical records",
            "Insurance eligibility must be validated in real-time before service",
            "Emergency contact information must be mandatory and accessible",
            "Medical history accuracy must be verified with patient confirmation",
            "HIPAA consent forms must be signed and dated before data collection"]
    else if incl context "appointment" || incl context "scheduling" then
      some ["Appointment conflicts must be prevented through real-time availability checking",
            "Provider schedule changes must trigger automatic patient notifications",
            "Appointment reminders must respect patient communication preferences",
            "No-show tracking must be automated with configurable policies",
            "Emergency appointment slots must be reserved and accessible"]
    else if incl context "medical" || incl context "clinical" then
      some ["Clinical data entry must follow standardized medical terminology",
            "Drug interaction checking must use current pharmaceutical databases",
            "Clinical decision support must provide evidence-based recommendations",
            "Medical coding must comply with ICD-10 and CPT standards",
            "Clinical alerts must be prioritized by severity and urgency"]
    else none
  else none

/-- The e-commerce block of `generateAIContextualValidation`. -/
def aicvEcommerce (domain context : String) : Option (List String) :=
  if domain = "ecommerce" then
    if incl context "catalog" || incl context "product" then
      some ["Product information must be synchronized across all sales channels",
            "Inventory levels must be validated before allowing purchase",
            "Product images must be optimized for web and mobile viewing",
            "Price calculations must include all applicable taxes and fees",
            "Product recommendations must be personalized based on browsing history"]
    else if incl context "cart" || incl context "checkout" then
      some ["Shopping cart persistence must maintain items for registered users",
            "Checkout process must support guest and registered user flows",
            "Payment validation must comply with PCI DSS security standards",
            "Shipping calculations must integrate with carrier APIs for accuracy",
            "Order confirmation must be sent immediately after successful payment"]
    else if incl context "order" || incl context "fulfillment" then
      some ["Order status tracking must be updated in real-time throughout fulfillment",
            "Inventory allocation must be immediate upon order confirmation",
            "Shipping notifications must include tracking numbers and delivery estimates",
            "Order modifications must be allowed within defined time windows",
            "Return processing must follow automated workflow with status updates"]
    else none
  else none

/-- The banking/financial block of `generateAIContextualValidation`. -/
def aicvFinancial (domain context : String) : Option (List String) :=
  if domain = "banking" || domain = "financial" then
    if incl context "transaction" || incl context "payment" then
      some ["Transaction authentication must use multi-factor verification",
            "Real-time fraud detection must analyze transaction patterns",
            "Currency conversion rates must be current and accurate",
            "Transaction limits must be enforced based on account type and history",
            "Settlement processing must comply with banking regulations"]
    else if incl context "account" || incl context "customer" then
      some ["Account opening must include comprehensive KYC verification",
            "Credit scoring must use validated algorithms and current data",
            "Account statements must be generated accurately and on schedule",
            "Customer onboarding must be completed within regulatory timeframes",
            "Account closure must follow proper procedures and data retention"]
    else none
  else none

/-- The `manage`/`primary` action branch of `generateAIContextualValidation`;
its first entry interpolates the first word of the persona. -/
def aicvManageList (persona : String) : List String :=
  [((jsSplit persona ' ').headD "") ++ " workflow must follow established business process standards",
   "Data validation must ensure completeness and accuracy for all inputs",
   "User interface must provide clear navigation and intuitive controls",
   "Process automation must handle exceptions gracefully with proper error handling",
   "System performance must meet response time requirements for user satisfaction"]

/-- The `handle`/`secondary` action branch of `generateAIContextualValidation`. -/
def aicvHandleList : List String :=
  ["Secondary operations must not interfere with primary business functions",
   "Background processing must be resilient to system interruptions",
   "Data consistency must be maintained across all related operations",
   "Error recovery must restore system state to known good condition",
   "Audit logging must capture all secondary operation activities"]

/-- The `form`/`intake` context branch of `generateAIContextualValidation`. -/
def aicvFormList : List String :=
  ["Form validation must provide real-time feedback for field-level errors",
   "Progressive disclosure must guide users through complex form processes",
   "Auto-save functionality must prevent data loss during form completion",
   "Accessibility features must support screen readers and keyboard navigation",
   "Form submission must include confirmation and next-step guidance"]

/-- The `baseActions` fallback of `generateAIContextualValidation` (the
`return [];` after it, commented `Return empty to trigger fallback`, is
unreachable dead code in the source). -/
def baseActions : List String :=
  ["Input validation must ensure data integrity and business rule compliance",
   "User experience must be intuitive and support efficient task completion",
   "Error handling must provide clear guidance for problem resolution",
   "Security measures must protect sensitive information and prevent unauthorized access",
   "Performance optimization must deliver responsive user interactions"]

/-- The sequential early-return structure of `generateAIContextualValidation`
after its lower-casing prologue. -/
def aicvDispatch (domain context actionLower persona personaLower : String) : List String :=
  match aicvMarketing domain context personaLower with
  | some l => l
  | none =>
  match aicvHealthcare domain context with
  | some l => l
  | none =>
  match aicvEcommerce domain context with
  | some l => l
  | none =>
  match aicvFinancial domain context with
  | some l => l
  | none =>
  if incl actionLower "manage" || incl actionLower "primary" then aicvManageList persona
  else if incl actionLower "handle" || incl actionLower "secondary" then aicvHandleList
  else if incl context "form" || incl context "intake" then aicvFormList
  else baseActions

/-- `generateAIContextualValidation(domain, epicTitle, action, persona)`. -/
def generateAIContextualValidation (domain epicTitle action persona : String) : List String :=
  let epicLower := jsToLower epicTitle
  let actionLower := jsToLower action
  let personaLower := jsToLower persona
  let context := epicLower ++ " " ++ actionLower ++ " " ++ personaLower
  aicvDispatch domain context actionLower persona personaLower

/-- The `baseValidations` of `getStoryValidationCriteria` (the four baseline
rules of the layered fallback path). -/
def baseValidations : List String :=
  ["Input validation ensures data integrity and prevents malformed data entry",
   "Error handling provides clear, actionable feedback to users",
   "Security validation prevents unauthorized access and data breaches",
   "Performance validation ensures response times meet user expectations"]

/-- The `domainSpecificValidations` table of `getStoryValidationCriteria`. -/
def domainSpecificValidations : List (String × List String) :=
  [("telecom",
    ["Telecom regulatory compliance (TRAI/DoT) must be enforced for all operations",
     "Number portability (MNP) processing must complete within regulatory timeframes",
     "Real-time charging accuracy must be validated to prevent revenue leakage",
     "KYC validation must comply with telecom industry standards and DoT guidelines",
     "SIM/eSIM provisioning must follow secure activation protocols",
     "Billing accuracy must be verified with mediation and reconciliation processes",
     "Network integration APIs (HLR/HSS/OCS) must handle failover scenarios",
     "Tariff calculations must support complex rating rules and promotional offers",
     "Customer care SLA requirements must be monitored and enforced",
     "Partner commission calculations must be accurate and auditable",
     "Usage data collection must comply with privacy and data retention policies"]),
   ("airline",
    ["Flight data must comply with IATA standards and GDS protocols",
     "PNR creation and management must follow airline industry standards",
     "Payment processing must be PCI DSS compliant with 3DS authentication",
     "Ticket issuance must comply with IATA ticketing standards (ET/EMD)",
     "Fare calculations must include all taxes, fees, and carrier surcharges",
     "Schedule change handling must support IRROPS and disruption management",
     "Seat map integration must reflect real-time airline inventory",
     "Baggage policy validation must enforce airline-specific rules",
     "Ancillary service pricing must integrate with airline merchandising systems",
     "Airport code validation must use IATA/ICAO standards",
     "DCS integration must support real-time seat map and passenger data",
     "APIS data collection must comply with international travel requirements"]),
   ("financial",
    ["Financial calculations must be accurate to 4 decimal places",
     "Regulatory compliance (SEC, FINRA) requirements must be met",
     "Audit trails must be maintained for all financial transactions",
     "Risk assessment algorithms must be validated against historical data",
     "Real-time market data integration must have <2 second latency",
     "Portfolio valuation must be calculated using current market prices",
     "Transaction settlement must follow T+2 clearing standards",
     "Anti-money laundering (AML) checks must be performed on all transactions",
     "Credit risk assessments must use validated scoring models",
     "Margin calculations must include all applicable fees and haircuts",
     "Stress testing scenarios must be updated regularly with market conditions"]),
   ("marketing",
    ["Marketing campaign data must comply with GDPR and privacy regulations",
     "A/B testing results must be statistically significant (95% confidence)",
     "Customer segmentation algorithms must be validated for accuracy",
     "Email deliverability rates must maintain >95% success rate",
     "Analytics tracking must comply with cookie consent requirements",
     "Attribution modeling must account for multi-touch customer journeys",
     "Campaign ROI calculations must include all associated costs",
     "Lead scoring algorithms must be calibrated regularly for accuracy",
     "Social media API integrations must handle rate limiting gracefully",
     "Personalization engines must respect customer privacy preferences",
     "Marketing automation workflows must prevent message fatigue"]),
   ("healthcare",
    ["HIPAA compliance must be validated for all patient data handling",
     "Medical data accuracy must be verified against clinical standards",
     "Patient consent validation must be documented and traceable",
     "Clinical decision support must be evidence-based and validated",
     "Emergency access protocols must be tested and functional",
     "HL7 FHIR standards must be followed for healthcare data exchange",
     "Drug interaction checking must use current clinical databases",
     "Clinical coding must follow ICD-10 and CPT standards",
     "Patient matching algorithms must prevent duplicate records",
     "Clinical alerts must be prioritized based on severity levels",
     "Medical device integration must validate data accuracy and timing"]),
   ("ecommerce",
    ["Payment processing must comply with PCI DSS standards",
     "Inventory synchronization must be real-time across all channels",
     "Price calculations must include all applicable taxes and fees",
     "Shopping cart persistence must maintain data for 30 days",
     "Product recommendations must be validated for relevance and accuracy",
     "Search functionality must return results within 2 seconds",
     "Mobile checkout must support one-click purchasing options",
     "Fraud detection must analyze transaction patterns in real-time",
     "Product data must be synchronized across all sales channels",
     "Customer reviews must be moderated for authenticity",
     "Shipping calculations must integrate with carrier APIs for accuracy"])]

/-- The contextual per-domain filtering of the domain validation pool by EPIC
title keywords (the `AI-style contextual filtering` block of
`getStoryValidationCriteria`). -/
def filterDomainValidations (domain epicTitle : String) (dv : List String) : List String :=
  let et := jsToLower epicTitle
  if domain = "telecom" then
    if incl et "billing" || incl et "charging" then
      dv.filter (fun v => incl v "billing" || incl v "charging" || incl v "revenue" || incl v "mediation")
    else if incl et "onboarding" || incl et "activation" then
      dv.filter (fun v => incl v "KYC" || incl v "activation" || incl v "provisioning" || incl v "SIM")
    else if incl et "care" || incl et "support" then
      dv.filter (fun v => incl v "Customer care" || incl v "SLA" || incl v "resolution")
    else if incl et "compliance" || incl et "analytics" then
      dv.filter (fun v => incl v "regulatory" || incl v "TRAI" || incl v "privacy" || incl v "audit")
    else dv
  else if domain = "airline" then
    if incl et "booking" || incl et "reservation" then
      dv.filter (fun v => incl v "PNR" || incl v "booking" || incl v "IATA" || incl v "GDS")
    else if incl et "payment" || incl et "fare" then
      dv.filter (fun v => incl v "payment" || incl v "PCI DSS" || incl v "fare" || incl v "pricing")
    else if incl et "operation" || incl et "schedule" then
      dv.filter (fun v => incl v "schedule" || incl v "IRROPS" || incl v "DCS" || incl v "disruption")
    else if incl et "service" || incl et "ancillary" then
      dv.filter (fun v => incl v "ancillary" || incl v "baggage" || incl v "seat map" || incl v "service")
    else dv
  else if domain = "financial" then
    if incl et "portfolio" || incl et "investment" then
      dv.filter (fun v => incl v "portfolio" || incl v "market data" || incl v "valuation" || incl v "risk")
    else if incl et "trading" || incl et "execution" then
      dv.filter (fun v => incl v "settlement" || incl v "transaction" || incl v "margin" || incl v "clearing")
    else if incl et "compliance" || incl et "risk" then
      dv.filter (fun v => incl v "compliance" || incl v "audit" || incl v "AML" || incl v "regulatory")
    else if incl et "calculation" || incl et "pricing" then
      dv.filter (fun v => incl v "calculation" || incl v "decimal places" || incl v "accuracy" || incl v "stress testing")
    else dv
  else if domain = "healthcare" then
    if incl et "patient" || incl et "record" then
      dv.filter (fun v => incl v "patient" || incl v "HIPAA" || incl v "consent" || incl v "matching")
    else if incl et "clinical" || incl et "medical" then
      dv.filter (fun v => incl v "clinical" || incl v "HL7" || incl v "ICD-10" || incl v "medical")
    else if incl et "prescription" || incl et "drug" then
      dv.filter (fun v => incl v "drug" || incl v "interaction" || incl v "medication" || incl v "clinical")
    else if incl et "emergency" || incl et "alert" then
      dv.filter (fun v => incl v "emergency" || incl v "alert" || incl v "priority" || incl v "clinical")
    else dv
  else if domain = "ecommerce" then
    if incl et "product" || incl et "catalog" then
      dv.filter (fun v => incl v "product" || incl v "search" || incl v "inventory" || incl v "recommendation")
    else if incl et "cart" || incl et "checkout" then
      dv.filter (fun v => incl v "cart" || incl v "checkout" || incl v "payment" || incl v "persistence")
    else if incl et "order" || incl et "fulfillment" then
      dv.filter (fun v => incl v "shipping" || incl v "synchronization" || incl v "fraud" || incl v "carrier")
    else if incl et "customer" || incl et "review" then
      dv.filter (fun v => incl v "review" || incl v "moderated" || incl v "mobile" || incl v "one-click")
    else dv
  else if domain = "marketing" then
    if incl et "campaign" || incl et "promotion" then
      dv.filter (fun v => incl v "campaign" || incl v "ROI" || incl v "GDPR" || incl v "automation")
    else if incl et "analytics" || incl et "tracking" then
      dv.filter (fun v => incl v "analytics" || incl v "tracking" || incl v "attribution" || incl v "cookie")
    else if incl et "segment" || incl et "personalization" then
      dv.filter (fun v => incl v "segmentation" || incl v "personalization" || incl v "privacy" || incl v "lead scoring")
    else if incl et "email" || incl et "social" then
      dv.filter (fun v => incl v "email" || incl v "deliverability" || incl v "social media" || incl v "API")
    else dv
  else dv

/-- The `actionSpecificValidations` table of `getStoryValidationCriteria`. -/
def actionSpecificValidations : List (String × List String) :=
  [("Create and Manage",
    ["Data creation validation ensures all required fields are completed",
     "Duplicate detection prevents creation of redundant records",
     "Workflow approval processes must be tested and functional",
     "Data modification logging must capture who, what, when details"]),
   ("View and Search",
    ["Search functionality must return relevant results within 2 seconds",
     "Filtering options must accurately narrow down result sets",
     "Pagination must handle large datasets efficiently",
     "Export functionality must maintain data formatting and integrity"]),
   ("Update and Maintain",
    ["Version control must track all changes with rollback capability",
     "Concurrent editing must prevent data conflicts and loss",
     "Backup and recovery procedures must be tested regularly",
     "Change notifications must be sent to relevant stakeholders"])]

/-- The `personaSpecificValidations` table of `getStoryValidationCriteria`. -/
def personaSpecificValidations : List (String × List String) :=
  [("Customer",
    ["User interface must be accessible and comply with WCAG 2.1 guidelines",
     "Mobile responsiveness must be tested across major device types",
     "Self-service capabilities must be intuitive and comprehensive"]),
   ("Customer Service Representative",
    ["Agent tools must provide 360-degree customer view and interaction history",
     "Escalation workflows must be clearly defined and automated",
     "Knowledge base integration must provide contextual assistance"]),
   ("Technical Support Agent",
    ["Diagnostic tools must provide real-time network and service status",
     "Trouble ticketing must integrate with network management systems",
     "Resolution tracking must measure first-call resolution rates"]),
   ("Billing Specialist",
    ["Billing accuracy validation must prevent revenue leakage",
     "Dispute resolution workflows must be streamlined and auditable",
     "Payment processing must support multiple methods and currencies"]),
   ("Channel Partner",
    ["Partner portal must provide real-time commission and sales tracking",
     "Inventory management must reflect accurate stock levels",
     "Training materials must be current and accessible"]),
   ("Business Analyst",
    ["Analytics dashboards must provide drill-down capabilities",
     "Report generation must support scheduled and on-demand execution",
     "Data quality validation must ensure accuracy of insights"]),
   ("Passenger",
    ["User interface must be intuitive for non-technical airline passengers",
     "Mobile responsiveness must support booking on all device types",
     "Accessibility must comply with disability access requirements (ADA)"]),
   ("Travel Agent",
    ["Agent tools must support rapid multi-passenger bookings",
     "GDS integration must provide real-time fare and inventory access",
     "Commission tracking and reporting must be accurate and timely"]),
   ("Airline Operations Staff",
    ["Operational tools must integrate with airline DCS and inventory systems",
     "IRROPS management must provide real-time disruption handling",
     "Queue management must support airline operational workflows"]),
   ("Financial Analyst",
    ["Financial models must be validated against industry benchmarks",
     "Risk calculations must include stress testing scenarios"]),
   ("Portfolio Manager",
    ["Portfolio rebalancing must consider transaction costs and tax implications",
     "Performance attribution must be calculated using industry standards"]),
   ("Marketing Manager",
    ["Campaign ROI calculations must include all direct and indirect costs",
     "Brand compliance guidelines must be enforced across all content"]),
   ("Healthcare Provider",
    ["Clinical protocols must be validated against current medical guidelines",
     "Patient safety alerts must be immediate and actionable"])]

/-- `getStoryValidationCriteria(domain, epicTitle, action, persona)`: return the
AI contextual validation when non-empty; otherwise layer baseline, filtered
domain pool (3), action rules (2) and persona rules, deduplicate, and truncate
to `min(7, count)`. -/
def getStoryValidationCriteria (domain epicTitle action persona : String) : List String :=
  let contextualValidation := generateAIContextualValidation domain epicTitle action persona
  if contextualValidation.length > 0 then contextualValidation
  else
    let validations := baseValidations
    let validations :=
      match domainSpecificValidations.lookup domain with
      | some dv => validations ++ (filterDomainValidations domain epicTitle dv).take 3
      | none => validations
    let validations :=
      match actionSpecificValidations.lookup action with
      | some av => validations ++ av.take 2
      | none => validations
    let validations :=
      match personaSpecificValidations.lookup persona with
      | some pv => validations ++ pv
      | none => validations
    let uniqueValidations := dedupFirst validations
    uniqueValidations.take (min 7 uniqueValidations.length)

/-- `generateUserStoriesFromRequirements(epic, domain, epicIndex)`: one story per
story group, with ids `US-<epicIndex+1>-<storyIndex+1>` (2-digit padded). -/
def generateUserStoriesFromRequirements (epic : Epic) (domain : String) (epicIndex : Nat) :
    List UserStory :=
  let requirements := epic.functionalRequirements
  let storyGroups := groupRequirementsIntoStories requirements epic.title domain
  storyGroups.enum.map (fun p =>
    let storyIndex := p.1
    let storyGroup := p.2
    let persona := getAppropriatePersona storyGroup.requirements domain
    { id := "US-" ++ padStart2 (epicIndex + 1) ++ "-" ++ padStart2 (storyIndex + 1),
      title := generateStoryTitle storyGroup epic.title,
      asA := persona,
      iWant := generateStoryWant storyGroup.requirements,
      soThat := generateStorySoThat storyGroup.requirements domain,
      acceptanceCriteria := generateStoryAcceptanceCriteria storyGroup.requirements,
      validationCriteria := getStoryValidationCriteria domain epic.title storyGroup.action persona,
      priority := epic.priority,
      storyPoints := calculateStoryPoints storyGroup.requirements,
      epicId := epic.id })

/-- `convertEpicsToUserStories(epics, domain)`. -/
def convertEpicsToUserStories (epics : List Epic) (domain : String) : List UserStory :=
  epics.enum.flatMap (fun p => generateUserStoriesFromRequirements p.2 domain p.1)

/-!  ## BRD-side EPIC formatting: `formatRequirementsAsEpics` and helpers -/

/-- `generateEpicTitle(firstRequirement, domain = null)` (used by the BRD EPIC
formatter; `domain` is `null` unless supplied). -/
def generateEpicTitle (firstRequirement : String) (domain : Option String) : String :=
  let req := jsToLower firstRequirement
  if domain = some "telecom" then
    if incl req "subscriber" || incl req "customer" || incl req "onboard" then
      "Customer Onboarding & Activation"
    else if incl req "billing" || incl req "charging" || incl req "payment" then
      "Billing & Revenue Management"
    else if incl req "plan" || incl req "service" || incl req "catalog" then
      "Service Catalog & Plan Management"
    else if incl req "care" || incl req "support" || incl req "ticket" then
      "Customer Care & Support"
    else if incl req "compliance" || incl req "regulatory" || incl req "audit" then
      "Regulatory Compliance & Analytics"
    else generateEpicTitleGeneric req
  else if domain = some "airline" then
    if incl req "booking" || incl req "reservation" || incl req "search" then
      "Flight Booking & Reservation"
    else if incl req "check" || incl req "boarding" || incl req "gate" then
      "Check-in & Boarding Management"
    else if incl req "baggage" || incl req "cargo" || incl req "handling" then
      "Baggage & Cargo Handling"
    else if incl req "schedule" || incl req "operation" || incl req "disruption" then
      "Flight Operations & Schedule Management"
    else if incl req "loyalty" || incl req "frequent" || incl req "rewards" then
      "Loyalty & Rewards Program"
    else generateEpicTitleGeneric req
  else if domain = some "financial" then
    if incl req "portfolio" || incl req "investment" || incl req "allocation" then
      "Portfolio & Investment Management"
    else if incl req "trading" || incl req "execution" || incl req "settlement" then
      "Trading & Settlement Operations"
    else if incl req "risk" || incl req "assessment" || incl req "monitoring" then
      "Risk Management & Assessment"
    else if incl req "compliance" || incl req "regulatory" || incl req "audit" then
      "Regulatory Compliance & Reporting"
    else if incl req "client" || incl req "onboard" || incl req "kyc" then
      "Client Onboarding & KYC"
    else generateEpicTitleGeneric req
  else if domain = some "healthcare" then
    if incl req "patient" || incl req "registration" || incl req "intake" then
      "Patient Registration & Management"
    else if incl req "appointment" || incl req "schedule" || incl req "booking" then
      "Appointment Scheduling & Management"
    else if incl req "clinical" || incl req "diagnosis" || incl req "treatment" then
      "Clinical Care & Treatment"
    else if incl req "prescription" || incl req "medication" || incl req "pharmacy" then
      "Prescription & Medication Management"
    else if incl req "insurance" || incl req "claim" || incl req "billing" then
      "Insurance & Billing Management"
    else generateEpicTitleGeneric req
  else if domain = some "ecommerce" then
    if incl req "product" || incl req "catalog" || incl req "inventory" then
      "Product Catalog & Inventory Management"
    else if incl req "cart" || incl req "checkout" || incl req "purchase" then
      "Shopping Cart & Checkout Process"
    else if incl req "order" || incl req "fulfillment" || incl req "shipping" then
      "Order Management & Fulfillment"
    else if incl req "customer" || incl req "account" || incl req "profile" then
      "Customer Account & Profile Management"
    else if incl req "review" || incl req "rating" || incl req "feedback" then
      "Reviews & Customer Feedback"
    else generateEpicTitleGeneric req
  else if domain = some "marketing" then
    if incl req "campaign" || incl req "promotion" || incl req "advertisement" then
      "Campaign & Promotion Management"
    else if incl req "lead" || incl req "prospect" || incl req "conversion" then
      "Lead Generation & Conversion"
    else if incl req "segment" || incl req "audience" || incl req "targeting" then
      "Audience Segmentation & Targeting"
    else if incl req "analytics" || incl req "tracking" || incl req "measurement" then
      "Marketing Analytics & Performance Tracking"
    else if incl req "email" || incl req "automation" || incl req "workflow" then
      "Email Marketing & Automation"
    else generateEpicTitleGeneric req
  else generateEpicTitleGeneric req
where
  /-- The generic fallback rules of `generateEpicTitle`. -/
  generateEpicTitleGeneric (req : String) : String :=
    if incl req "user" || incl req "auth" || incl req "login" then
      "User Management & Authentication"
    else if incl req "data" || incl req "database" || incl req "storage" then
      "Data Management & Storage"
    else if incl req "report" || incl req "analytic" || incl req "dashboard" then
      "Reporting & Analytics"
    else if incl req "payment" || incl req "transaction" || incl req "billing" then
      "Payment & Transaction Processing"
    else if incl req "security" || incl req "compliance" || incl req "audit" then
      "Security & Compliance"
    else if incl req "integration" || incl req "api" || incl req "external" then
      "System Integration"
    else if incl req "performance" || incl req "scalability" || incl req "optimization" then
      "Performance & Scalability"
    else "Core Business Requirements"

/-- `getEpicPriority(requirements)`. -/
def getEpicPriority (requirements : List String) : String :=
  let text := jsToLower (String.intercalate " " requirements)
  if incl text "critical" || incl text "must" || incl text "essential" then "High"
  else if incl text "should" || incl text "important" || incl text "required" then "Medium"
  else "Low"

/-- The `{id, title, requirements}` records the BRD EPIC formatter builds. -/
structure BrdEpic where
  id : String
  title : String
  requirements : List String
deriving DecidableEq

/-- One step of the `lines.forEach` loop of `formatRequirementsAsEpics`, over the
state `(epics, currentEpic, epicCount)`. -/
def formatStep (domain : Option String) (st : List BrdEpic × List String × Nat) (line : String) :
    List BrdEpic × List String × Nat :=
  let epics := st.1
  let currentEpic := st.2.1
  let epicCount := st.2.2
  if (currentEpic.length ≥ 3 ||
      (incl (jsToLower line) "system" && currentEpic.length > 0) ||
      (incl (jsToLower line) "user" && currentEpic.length > 0)) && currentEpic.length > 0 then
    (epics ++ [{ id := "EPIC-" ++ padStart2 epicCount,
                 title := generateEpicTitle (currentEpic.headD "") domain,
                 requirements := currentEpic }],
     [line], epicCount + 1)
  else
    (epics, currentEpic ++ [line], epicCount)

/-- The EPIC list `formatRequirementsAsEpics` builds before rendering it to
HTML (loop, trailing flush, and the defensive default when no EPIC exists). -/
def formatEpicsOf (requirements : String) (domain : Option String) : List BrdEpic :=
  let lines := ((jsSplit requirements '\n').map jsTrim).filter (fun l => l ≠ "")
  let st := lines.foldl (formatStep domain) ([], [], 1)
  let epics := st.1
  let currentEpic := st.2.1
  let epicCount := st.2.2
  let epics := if currentEpic.length > 0 then
      epics ++ [{ id := "EPIC-" ++ padStart2 epicCount,
                  title := generateEpicTitle (currentEpic.headD "") domain,
                  requirements := currentEpic }]
    else epics
  if epics.length = 0 then
    [{ id := "EPIC-01", title := "Core System Requirements", requirements := lines }]
  else epics

/-- `formatRequirementsAsEpics(requirements, project, domain = null)`. -/
def formatRequirementsAsEpics (requirements project : String) (domain : Option String) : String :=
  if jsTrim requirements = "" then
    "<p><em>No specific requirements provided. Please add business requirements to see EPIC formatting.</em></p>"
  else
    String.join ((formatEpicsOf requirements domain).map (fun epic =>
      "\n      <div style=\"border:1px solid #d1d5db;margin:12px 0;padding:15px;border-radius:6px;background:#f8fafc;\">\n        <h3 style=\"color:#1f2937;margin-top:0;display:flex;align-items:center;\">\n          <span style=\"background:#3b82f6;color:white;padding:4px 8px;border-radius:4px;font-size:12px;margin-right:10px;\">"
      ++ epic.id ++
      "</span>\n          "
      ++ epic.title ++
      "\n        </h3>\n        <div style=\"margin-top:10px;\">\n          <strong>Requirements:</strong>\n          <ul style=\"margin-top:6px;\">\n            "
      ++ String.join (epic.requirements.map (fun req => "<li style=\"margin-bottom:4px;\">" ++ req ++ "</li>")) ++
      "\n          </ul>\n        </div>\n        <div style=\"margin-top:10px;padding-top:8px;border-top:1px solid #e5e7eb;font-size:13px;color:#6b7280;\">\n          <strong>EPIC Status:</strong> Ready for FRD conversion | <strong>Priority:</strong> "
      ++ getEpicPriority epic.requirements ++
      "\n        </div>\n      </div>\n    "))

/-!  ## Document Renderer: `generateBrdHtml` and `generateFrdFromBrd` -/

/-- The ambient nondeterminism sources the browser makes available to the
generator code (wall clock `Date.now`, `Math.random`).  The generation engine
never reads either; the renderers receive the ambient environment explicitly
so that independence from it is a statable property. -/
structure Env where
  now : Nat
  random : Nat → Nat

/-- `getValidationCriteria(inputs, project)`: AI domain detection followed by a
`switch` returning a fixed domain-specific validation block (every case
returns, so the legacy code after the `switch` is unreachable). -/
def getValidationCriteria (inputs : BrdInputs) (project : String) : String :=
  let detectedDomain := detectBusinessDomain inputs project
  if detectedDomain = "marketing" then
    "• Enforce customer consent validation for communication preferences<br/>\n• Validate email address format and deliverability standards<br/>\n• Implement campaign performance tracking and attribution models<br/>\n• Enforce A/B testing validation for campaign optimization<br/>\n• Validate lead scoring and segmentation accuracy<br/>\n• Ensure GDPR compliance for customer data processing"
  else if detectedDomain = "financial" then
    "• Enforce multi-level approval workflows for financial transactions<br/>\n• Validate accounting equation balance (Assets = Liabilities + Equity)<br/>\n• Implement audit trail requirements for all financial entries<br/>\n• Enforce regulatory compliance checks (SOX, GAAP)<br/>\n• Validate currency conversion and rounding rules<br/>\n• Implement segregation of duties for financial operations"
  else if detectedDomain = "healthcare" then
    "• Enforce HIPAA compliance for patient data protection<br/>\n• Validate medical record integrity and audit trails<br/>\n• Implement patient consent validation for treatments<br/>\n• Enforce prescription and medication safety checks<br/>\n• Validate provider credentials and licensing<br/>\n• Implement emergency access protocols for patient data"
  else if detectedDomain = "ecommerce" then
    "• Validate inventory levels before order confirmation<br/>\n• Enforce payment gateway security and PCI compliance<br/>\n• Implement order fulfillment and shipping validation<br/>\n• Validate product pricing and discount calculations<br/>\n• Enforce customer authentication and fraud detection<br/>\n• Implement return and refund policy validation"
  else
    "• Validate data integrity and consistency across all modules<br/>\n• Implement user authentication and authorization controls<br/>\n• Enforce business rule validation and exception handling<br/>\n• Validate system performance and scalability requirements<br/>\n• Implement audit logging for all critical operations<br/>\n• Enforce data backup and disaster recovery procedures"

/-- The `idxItems` array of `generateBrdHtml`. -/
def idxItems : List String :=
  ["Executive Summary", "Project Scope", "Business Objectives", "Budget Details",
   "Business Requirements", "Assumptions", "Constraints",
   "Validations & Acceptance Criteria", "Appendices"]

/-- `generateBrdHtml({ project, inputs, version, domain = null })`.  The
environment parameter records that the function has access to ambient
time/randomness but never reads it. -/
def generateBrdHtml (env : Env) (project : String) (inputs : BrdInputs) (version : Nat)
    (domain : Option String) : String :=
  "\n      <div style=\"font-family:Calibri, Arial, Helvetica, sans-serif;color:#111827;line-height:1.45;padding:18px;\">\n        <h1 style=\"text-align:center;margin-bottom:6px;\">Business Requirement Document (BRD)</h1>\n        <h2 style=\"text-align:center;margin-top:2px;\">"
  ++ project ++ " — BRD Version-" ++ toString version ++
  "</h2>\n        <hr/>\n        <h3>Document Index</h3>\n        <ol>\n          "
  ++ String.join (idxItems.map (fun i => "<li>" ++ i ++ "</li>")) ++
  "\n        </ol>\n\n        <h2>1. Executive Summary</h2>\n        <p>This document captures the business requirements for the project <strong>"
  ++ project ++
  "</strong>. It follows standard BA practice aligned to BABOK and provides the scope, objectives, requirements, budget and validations required for delivering the solution.</p>\n\n        <h2>2. Project Scope</h2>\n        <p>"
  ++ jsReplaceAll inputs.scope '\n' "<br/>" ++
  "</p>\n\n        <h2>3. Business Objectives</h2>\n        <p>"
  ++ jsReplaceAll inputs.objectives '\n' "<br/>" ++
  "</p>\n\n        <h2>4. Budget Details</h2>\n        <p>"
  ++ jsReplaceAll inputs.budget '\n' "<br/>" ++
  "</p>\n\n        <h2>5. Business Requirements (EPIC Format)</h2>\n        "
  ++ formatRequirementsAsEpics inputs.briefRequirements project domain ++
  "\n\n        <h2>6. Assumptions</h2>\n        <p>"
  ++ jsReplaceAll inputs.assumptions '\n' "<br/>" ++
  "</p>\n\n        <h2>7. Constraints</h2>\n        <p>"
  ++ jsReplaceAll inputs.constraints '\n' "<br/>" ++
  "</p>\n\n        <h2>8. Validations & Acceptance Criteria</h2>\n        <p>🤖 AI DOMAIN DETECTION ACTIVE - "
  ++ getValidationCriteria inputs project ++
  "</p>\n\n        <h2>9. Appendices</h2>\n        <p>Appendix A: Glossary<br/>Appendix B: References</p>\n\n        <hr/>\n        <p style=\"font-size:11px;color:#6b7280;\">Generated by BA Assistant Tool</p>\n      </div>\n    "

/-- The per-Epic block of the FRD `EPIC Breakdown` section. -/
def frdEpicBlock (epic : Epic) : String :=
  "\n          <div style=\"border:1px solid #d1d5db;margin:10px 0;padding:12px;border-radius:6px;\">\n            <h3 style=\"color:#1f2937;margin-top:0;\">"
  ++ epic.id ++ ": " ++ epic.title ++
  "</h3>\n            <p><strong>Description:</strong> " ++ epic.description ++
  "</p>\n            <p><strong>Business Value:</strong> " ++ epic.businessValue ++
  "</p>\n            <p><strong>Acceptance Criteria:</strong></p>\n            <ul>\n              "
  ++ String.join (epic.acceptanceCriteria.map (fun criteria => "<li>" ++ criteria ++ "</li>")) ++
  "\n            </ul>\n          </div>\n        "

/-- The per-story block of the FRD `User Stories` section. -/
def frdStoryBlock (story : UserStory) : String :=
  "\n          <div style=\"border:1px solid #e5e7eb;margin:8px 0;padding:10px;border-radius:4px;background:#f9fafb;\">\n            <h4 style=\"color:#374151;margin-top:0;\">"
  ++ story.id ++ ": " ++ story.title ++
  "</h4>\n            <p><strong>As a</strong> " ++ story.asA ++
  ", <strong>I want</strong> " ++ story.iWant ++
  ", <strong>so that</strong> " ++ story.soThat ++
  ".</p>\n            <p><strong>Acceptance Criteria:</strong></p>\n            <ul>\n              "
  ++ String.join (story.acceptanceCriteria.map (fun criteria => "<li>" ++ criteria ++ "</li>")) ++
  "\n            </ul>\n            <div style=\"background:#fff3cd;padding:8px;border-radius:4px;margin:8px 0;border-left:4px solid #ffc107;\">\n              <p style=\"margin:0;\"><strong>🔍 Validation Criteria:</strong></p>\n              <ul style=\"margin:4px 0 0 0;\">\n                "
  ++ String.join (story.validationCriteria.map (fun validation => "<li>" ++ validation ++ "</li>")) ++
  "\n              </ul>\n            </div>\n            <p><strong>Priority:</strong> " ++ story.priority ++
  " | <strong>Story Points:</strong> " ++ toString story.storyPoints ++
  "</p>\n          </div>\n        "

/-- The per-Epic block of the FRD `Functional Requirements` section. -/
def frdFunctionalBlock (epic : Epic) : String :=
  "\n          <h3>" ++ epic.id ++
  " Functional Requirements</h3>\n          <ul>\n            "
  ++ String.join (epic.functionalRequirements.map (fun req => "<li>" ++ req ++ "</li>")) ++
  "\n          </ul>\n        "

/-- `generateFrdFromBrd(brdText, project, version)`: domain detection,
extraction, EPIC and story synthesis, and HTML assembly. -/
def generateFrdFromBrd (env : Env) (brdText project : String) (version : Nat) : String :=
  let domain := detectDomainFromBrdText brdText
  let requirements := extractRequirementsFromBrd brdText
  let epics := convertRequirementsToEpics requirements domain
  let userStories := convertEpicsToUserStories epics domain
  "\n      <div style=\"font-family:Calibri, Arial, Helvetica, sans-serif;color:#111827;line-height:1.45;padding:18px;\">\n        <h1 style=\"text-align:center;margin-bottom:6px;\">Functional Requirement Document (FRD)</h1>\n        <h2 style=\"text-align:center;margin-top:2px;\">"
  ++ project ++ " — FRD Version-" ++ toString version ++
  "</h2>\n        <div style=\"background:#f3f4f6;padding:8px;border-radius:4px;margin:12px 0;\">\n          <strong>🤖 AI DOMAIN INTELLIGENCE: "
  ++ jsToUpper domain ++
  " DOMAIN DETECTED</strong>\n        </div>\n        <hr/>\n        \n        <h3>Document Index</h3>\n        <ol>\n          <li>Executive Summary</li>\n          <li>EPIC Breakdown</li>\n          <li>User Stories</li>\n          <li>Functional Requirements</li>\n          <li>Acceptance Criteria</li>\n          <li>Technical Specifications</li>\n        </ol>\n\n        <h2>1. Executive Summary</h2>\n        <p>This Functional Requirements Document (FRD) translates the business requirements into detailed functional specifications for <strong>"
  ++ project ++
  "</strong>. \n        The requirements are organized into EPICs and User Stories following Agile methodology with "
  ++ domain ++
  "-specific domain expertise.</p>\n\n        <h2>2. EPIC Breakdown</h2>\n        "
  ++ String.join (epics.map frdEpicBlock) ++
  "\n\n        <h2>3. User Stories</h2>\n        "
  ++ String.join (userStories.map frdStoryBlock) ++
  "\n\n        <h2>4. Functional Requirements</h2>\n        <p>The following functional requirements have been derived from the business requirements and organized by EPIC:</p>\n        "
  ++ String.join (epics.map frdFunctionalBlock) ++
  "\n\n        <h2>5. Acceptance Criteria</h2>\n        <p>Each EPIC and User Story includes specific acceptance criteria tailored for the "
  ++ domain ++
  " domain:</p>\n        <ul>\n          <li>All functional requirements must be validated against "
  ++ domain ++
  " industry standards</li>\n          <li>User acceptance testing must cover all defined user stories</li>\n          <li>Performance criteria must meet "
  ++ domain ++
  "-specific requirements</li>\n          <li>Security and compliance requirements must be validated</li>\n        </ul>\n\n        <h2>6. Technical Specifications</h2>\n        <p>Technical implementation details will be defined in separate Technical Requirements Document (TRD) based on these functional requirements.</p>\n\n        <hr/>\n        <p style=\"font-size:11px;color:#6b7280;\">Generated by BA Assistant Tool with AI Domain Intelligence</p>\n      </div>\n    "

/-!  ## Specification-side helper definitions (for stating properties) -/

/-- The maximum of the scores in a `(domain, score)` list. -/
def scoresMax (pairs : List (String × Nat)) : Nat := (pairs.map (·.2)).foldr max 0

/-- First name in the list whose score equals `m` (`'generic'` when none does). -/
def firstWithMax : List (String × Nat) → Nat → String
  | [], _ => "generic"
  | p :: rest, m => if p.2 = m then p.1 else firstWithMax rest m

/-- The first domain of the list attaining the maximum score — the stable
tie-break winner the specification describes. -/
def firstMaxName (pairs : List (String × Nat)) : String :=
  firstWithMax pairs (scoresMax pairs)

/-- The per-domain score list `detectDomainFromBrdText` iterates over, in table
order. -/
def ddScores (brdText : String) : List (String × Nat) :=
  domainKeywordTable.map (fun dk => (dk.1, keywordScore (jsToLower brdText) dk.2))

/-!  ## Concrete inputs used by witnesses and counterexamples -/

/-- A `BrdInputs` value with every field empty. -/
def emptyInputs : BrdInputs := ⟨"", "", "", "", "", "", ""⟩

/-- Nine requirements carrying nine distinct `epicId` tags. -/
def nineReqs : List Req :=
  [⟨"req one text", "EPIC-01", "T", "Low", true⟩,
   ⟨"req two text", "EPIC-02", "T", "Low", true⟩,
   ⟨"req three text", "EPIC-03", "T", "Low", true⟩,
   ⟨"req four text", "EPIC-04", "T", "Low", true⟩,
   ⟨"req five text", "EPIC-05", "T", "Low", true⟩,
   ⟨"req six text", "EPIC-06", "T", "Low", true⟩,
   ⟨"req seven text", "EPIC-07", "T", "Low", true⟩,
   ⟨"req eight text", "EPIC-08", "T", "Low", true⟩,
   ⟨"req nine text", "EPIC-09", "T", "Low", true⟩]

/-- A one-requirement Epic used to witness the story generator invariant. -/
def oneReqEpic : Epic :=
  ⟨"EPIC-01", "Core Business Functionality", "d", "b", [], ["basic capability"], "Medium"⟩

/-- The first story generated for `oneReqEpic` in the generic domain. -/
def oneReqStory : UserStory :=
  (convertEpicsToUserStories [oneReqEpic] "generic").headD
    ⟨"", "", "", "", "", [], [], "", 0, ""⟩

/-- A financial Onboarding Epic whose three requirements each match a distinct
financial story-grouping rule. -/
def finOnboardEpic : Epic :=
  ⟨"EPIC-01", "Investor Onboarding & Digital Intake", "d", "b", [],
   ["digital intake of data", "eligibility screening of investors", "document upload portal"],
   "Medium"⟩

/-- A structured BRD text with one long and one short bullet requirement. -/
def shortBulletBrd : String :=
  "EPIC-01: Billing\nRequirements:\n• must handle invoicing now\n• tiny"

/-!  ## Theorems -/

theorem scoresMax_cons (p : String × Nat) (t : List (String × Nat)) :
    scoresMax (p :: t) = max p.2 (scoresMax t) := rfl

theorem reduceTop_char (rest : List (String × Nat)) (p0 : String × Nat) :
    reduceTop p0 rest
      = if p0.2 < scoresMax rest then (firstWithMax rest (scoresMax rest), scoresMax rest)
        else p0 := by
  induction rest generalizing p0 with
  | nil =>
    simp [reduceTop, scoresMax]
  | cons p t ih =>
    rw [scoresMax_cons]
    have hstep : reduceTop p0 (p :: t) = reduceTop (if p.2 > p0.2 then p else p0) t := rfl
    rw [hstep, ih]
    by_cases h1 : p.2 > p0.2
    · rw [if_pos h1]
      by_cases h2 : p.2 < scoresMax t
      · rw [if_pos h2, if_pos (by omega)]
        have hmx : max p.2 (scoresMax t) = scoresMax t := by omega
        rw [hmx]
        simp only [firstWithMax]
        rw [if_neg (by omega)]
      · rw [if_neg h2, if_pos (by omega)]
        have hmx : max p.2 (scoresMax t) = p.2 := by omega
        rw [hmx]
        simp only [firstWithMax]
        simp
    · rw [if_neg h1]
      by_cases h2 : p0.2 < scoresMax t
      · rw [if_pos h2, if_pos (by omega)]
        have hmx : max p.2 (scoresMax t) = scoresMax t := by omega
        rw [hmx]
        simp only [firstWithMax]
        rw [if_neg (by omega)]
      · rw [if_neg h2, if_neg (by omega)]

theorem foldl_swap_char (t : List (String × Nat)) (m0 : Nat) (n0 : String) :
    t.foldl (fun acc q => if q.2 > acc.1 then (q.2, q.1) else acc) (m0, n0)
      = if m0 < scoresMax t then (scoresMax t, firstWithMax t (scoresMax t)) else (m0, n0) := by
  induction t generalizing m0 n0 with
  | nil =>
    simp [scoresMax]
  | cons p t ih =>
    rw [scoresMax_cons]
    simp only [List.foldl]
    by_cases h1 : p.2 > m0
    · rw [if_pos h1, ih]
      by_cases h2 : p.2 < scoresMax t
      · rw [if_pos h2, if_pos (by omega)]
        have hmx : max p.2 (scoresMax t) = scoresMax t := by omega
        rw [hmx]
        simp only [firstWithMax]
        rw [if_neg (by omega)]
      · rw [if_neg h2, if_pos (by omega)]
        have hmx : max p.2 (scoresMax t) = p.2 := by omega
        rw [hmx]
        simp only [firstWithMax]
        simp
    · rw [if_neg h1, ih]
      by_cases h2 : m0 < scoresMax t
      · rw [if_pos h2, if_pos (by omega)]
        have hmx : max p.2 (scoresMax t) = scoresMax t := by omega
        rw [hmx]
        simp only [firstWithMax]
        rw [if_neg (by omega)]
      · rw [if_neg h2, if_neg (by omega)]

theorem detectRun_char (pairs : List (String × Nat)) :
    detectRun pairs
      = if 0 < scoresMax pairs then (scoresMax pairs, firstWithMax pairs (scoresMax pairs))
        else (0, "generic") :=
  foldl_swap_char pairs 0 "generic"

theorem db_from_char (first : String × Nat) (rest : List (String × Nat)) :
    (let topDomain := reduceTop first rest
     if topDomain.2 ≥ 2 then topDomain.1 else "generic")
    = if 2 ≤ scoresMax (first :: rest) then firstMaxName (first :: rest) else "generic" := by
  show (if (reduceTop first rest).2 ≥ 2 then (reduceTop first rest).1 else "generic") = _
  rw [reduceTop_char]
  unfold firstMaxName
  rw [scoresMax_cons]
  simp only [firstWithMax]
  by_cases h1 : first.2 < scoresMax rest
  · rw [if_pos h1]
    have hmx : max first.2 (scoresMax rest) = scoresMax rest := by omega
    rw [hmx]
    rw [if_neg (show ¬ first.2 = scoresMax rest by omega)]
  · rw [if_neg h1]
    have hmx : max first.2 (scoresMax rest) = first.2 := by omega
    rw [hmx]
    rw [if_pos (rfl : first.2 = first.2)]

theorem detectBusinessDomain_char (inputs : BrdInputs) (project : String) :
    detectBusinessDomain inputs project
      = if 2 ≤ scoresMax (dbScores inputs project)
        then firstMaxName (dbScores inputs project) else "generic" :=
  db_from_char ("marketing", keywordScore (combinedContent inputs project) marketingKeywords)
    [("financial", keywordScore (combinedContent inputs project) financialKeywords),
     ("healthcare", keywordScore (combinedContent inputs project) healthcareKeywords),
     ("ecommerce", keywordScore (combinedContent inputs project) ecommerceKeywords)]

theorem detectDomainFromBrdText_char (brdText : String) :
    detectDomainFromBrdText brdText
      = if 0 < scoresMax (ddScores brdText)
        then firstMaxName (ddScores brdText) else "generic" := by
  have h2 : detectDomainFromBrdText brdText = (detectRun (ddScores brdText)).2 := rfl
  rw [h2, detectRun_char]
  by_cases h3 : 0 < scoresMax (ddScores brdText)
  · rw [if_pos h3, if_pos h3]
    rfl
  · rw [if_neg h3, if_neg h3]

theorem firstMaxName_mem (pairs : List (String × Nat)) (h : 0 < scoresMax pairs) :
    firstMaxName pairs ∈ pairs.map Prod.fst := by
  induction pairs with
  | nil => simp [scoresMax] at h
  | cons p t ih =>
    rw [scoresMax_cons] at h
    unfold firstMaxName
    rw [scoresMax_cons]
    simp only [firstWithMax]
    by_cases h1 : p.2 = max p.2 (scoresMax t)
    · rw [if_pos h1]
      simp [List.map_cons]
    · rw [if_neg h1]
      have hst : max p.2 (scoresMax t) = scoresMax t := by omega
      rw [hst]
      have ht : 0 < scoresMax t := by omega
      have hmem := ih ht
      unfold firstMaxName at hmem
      simp only [List.map_cons, List.mem_cons]
      exact Or.inr hmem

/-- C1: the below-2 threshold fallback to `generic` holds for
`detectBusinessDomain`, but `detectDomainFromBrdText` falls back to `generic`
exactly when every domain scores 0 — one keyword occurrence already selects a
named domain. -/
theorem c1_generic_threshold :
    (∀ (inputs : BrdInputs) (project : String),
        scoresMax (dbScores inputs project) < 2 →
        detectBusinessDomain inputs project = "generic")
    ∧ (∀ brdText : String,
        detectDomainFromBrdText brdText = "generic" ↔ scoresMax (ddScores brdText) = 0) := by
  constructor
  · intro inputs project h
    rw [detectBusinessDomain_char, if_neg (by omega)]
  · intro t
    constructor
    · intro hg
      by_contra h0
      have h1 : 0 < scoresMax (ddScores t) := Nat.pos_of_ne_zero h0
      rw [detectDomainFromBrdText_char, if_pos h1] at hg
      have hmem := firstMaxName_mem (ddScores t) h1
      have hnames : (ddScores t).map Prod.fst
          = ["telecom", "airline", "financial", "healthcare", "ecommerce", "marketing"] := by
        simp [ddScores, domainKeywordTable]
      rw [hnames, hg] at hmem
      exact absurd hmem (by decide)
    · intro h0
      rw [detectDomainFromBrdText_char, if_neg (by omega)]

/-- C1 counterexample: the single keyword `flight` gives a maximal score of 1
(below 2) across the whole table, yet `detectDomainFromBrdText` classifies the
text as `airline`, not `generic`. -/
theorem c1_counterexample :
    scoresMax (ddScores "flight") = 1
    ∧ detectDomainFromBrdText "flight" = "airline"
    ∧ ("airline" : String) ≠ "generic" :=
  ⟨by decide, by decide, by decide⟩

/-- C1 witness: the hypotheses of `c1_generic_threshold` hold at concrete
inputs. -/
theorem c1_witness :
    detectBusinessDomain emptyInputs "" = "generic"
    ∧ (detectDomainFromBrdText "" = "generic" ↔ scoresMax (ddScores "") = 0) :=
  ⟨c1_generic_threshold.1 emptyInputs "" (by decide), c1_generic_threshold.2 ""⟩

/-- C6: when two or more domains tie at the maximal score and the score clears
the generic-fallback threshold (2 for `detectBusinessDomain`, 1 for
`detectDomainFromBrdText`), the first domain of the table attaining the
maximum wins; a tie below the threshold instead yields `generic`. -/
theorem c6_tiebreak_first :
    (∀ (inputs : BrdInputs) (project : String),
        2 ≤ ((dbScores inputs project).filter
              (fun p => p.2 == scoresMax (dbScores inputs project))).length →
        2 ≤ scoresMax (dbScores inputs project) →
        detectBusinessDomain inputs project = firstMaxName (dbScores inputs project))
    ∧ (∀ brdText : String,
        2 ≤ ((ddScores brdText).filter
              (fun p => p.2 == scoresMax (ddScores brdText))).length →
        0 < scoresMax (ddScores brdText) →
        detectDomainFromBrdText brdText = firstMaxName (ddScores brdText)) := by
  constructor
  · intro inputs project _ hthr
    rw [detectBusinessDomain_char, if_pos hthr]
  · intro t _ hthr
    rw [detectDomainFromBrdText_char, if_pos hthr]

/-- C6 counterexample: on all-empty inputs every domain ties at the maximal
score 0, but `detectBusinessDomain` returns `generic`, not the first tied
domain of the table (`marketing`). -/
theorem c6_counterexample :
    2 ≤ ((dbScores emptyInputs "").filter
          (fun p => p.2 == scoresMax (dbScores emptyInputs ""))).length
    ∧ firstMaxName (dbScores emptyInputs "") = "marketing"
    ∧ detectBusinessDomain emptyInputs "" = "generic"
    ∧ detectBusinessDomain emptyInputs "" ≠ firstMaxName (dbScores emptyInputs "") :=
  ⟨by decide, by decide, by decide, by decide⟩

/-- C6 witness: ties at or above the threshold at concrete inputs, resolved to
the first tied domain. -/
theorem c6_witness :
    detectBusinessDomain ⟨"bank loan campaign email", "", "", "", "", "", ""⟩ ""
      = firstMaxName (dbScores ⟨"bank loan campaign email", "", "", "", "", "", ""⟩ "")
    ∧ detectDomainFromBrdText "sim flight" = firstMaxName (ddScores "sim flight") :=
  ⟨c6_tiebreak_first.1 ⟨"bank loan campaign email", "", "", "", "", "", ""⟩ ""
      (by decide) (by decide),
   c6_tiebreak_first.2 "sim flight" (by decide) (by decide)⟩

theorem dedupFirstAux_length_le [BEq α] (l : List α) :
    ∀ seen : List α, (dedupFirstAux seen l).length ≤ l.length := by
  induction l with
  | nil => intro seen; simp [dedupFirstAux]
  | cons h t ih =>
    intro seen
    unfold dedupFirstAux
    by_cases hc : seen.contains h = true
    · rw [if_pos hc]
      exact Nat.le_succ_of_le (ih seen)
    · rw [if_neg hc]
      simpa using ih (h :: seen)

theorem dedupFirst_length_le [BEq α] (l : List α) : (dedupFirst l).length ≤ l.length :=
  dedupFirstAux_length_le l []

theorem dedupFirst_length_pos [BEq α] (a : α) (t : List α) :
    1 ≤ (dedupFirst (a :: t)).length := by
  unfold dedupFirst dedupFirstAux
  rw [if_neg (by simp)]
  simp

/-- C2 (amended): EPIC synthesis returns between 1 and the number of
requirements Epics (one per distinct epicId tag, one default Epic when no
requirement exists); there is no cap of 8. -/
theorem c2_epic_count_bounds :
    ∀ (reqs : List Req) (domain : String),
      1 ≤ (convertRequirementsToEpics reqs domain).length
      ∧ (convertRequirementsToEpics reqs domain).length ≤ max 1 reqs.length := by
  intro reqs domain
  unfold convertRequirementsToEpics
  by_cases h0 : reqs.length = 0
  · rw [if_pos h0]
    unfold getDefaultEpicsForDomain
    by_cases hd : domain = "airline"
    · rw [if_pos hd]; exact ⟨by simp, by simp⟩
    · rw [if_neg hd]; exact ⟨by simp, by simp⟩
  · rw [if_neg h0]
    rw [List.length_map]
    constructor
    · cases hr : reqs with
      | nil => rw [hr] at h0; simp at h0
      | cons a t =>
        unfold epicGroupKeys
        simpa using dedupFirst_length_pos (epicIdKey a) (t.map epicIdKey)
    · have h1 : (epicGroupKeys reqs).length ≤ (reqs.map epicIdKey).length :=
        dedupFirst_length_le _
      rw [List.length_map] at h1
      omega

/-- C2 counterexample: nine requirements tagged with nine distinct epicIds
yield nine Epics — more than the claimed cap of 8. -/
theorem c2_counterexample :
    8 < (convertRequirementsToEpics nineReqs "generic").length := by decide

/-- C5: for every domain, synthesizing from an empty requirement list yields
exactly one default Epic whose id is `EPIC-01`. -/
theorem c5_empty_default_epic :
    ∀ domain : String,
      (convertRequirementsToEpics [] domain).map Epic.id = ["EPIC-01"] := by
  intro domain
  show (getDefaultEpicsForDomain domain).map Epic.id = ["EPIC-01"]
  unfold getDefaultEpicsForDomain
  by_cases hd : domain = "airline"
  · rw [if_pos hd]; rfl
  · rw [if_neg hd]; rfl

theorem append_data (x y : String) : (x ++ y).data = x.data ++ y.data := by
  cases x; cases y; rfl

theorem append_ne (x A B : String) (h : ¬ (A.data <:+ B.data)) : x ++ A ≠ B := by
  intro he
  apply h
  refine ⟨x.data, ?_⟩
  rw [← append_data]
  exact congrArg String.data he

theorem aicvManageList_spec (persona : String) :
    (aicvManageList persona).length = 5 ∧ (aicvManageList persona).Nodup := by
  refine ⟨rfl, ?_⟩
  have h1 := append_ne ((jsSplit persona ' ').headD "")
    " workflow must follow established business process standards"
    "Data validation must ensure completeness and accuracy for all inputs" (by decide)
  have h2 := append_ne ((jsSplit persona ' ').headD "")
    " workflow must follow established business process standards"
    "User interface must provide clear navigation and intuitive controls" (by decide)
  have h3 := append_ne ((jsSplit persona ' ').headD "")
    " workflow must follow established business process standards"
    "Process automation must handle exceptions gracefully with proper error handling" (by decide)
  have h4 := append_ne ((jsSplit persona ' ').headD "")
    " workflow must follow established business process standards"
    "System performance must meet response time requirements for user satisfaction" (by decide)
  unfold aicvManageList
  refine List.Nodup.cons ?_ (by decide)
  intro hmem
  simp only [List.mem_cons, List.not_mem_nil, or_false] at hmem
  rcases hmem with h | h | h | h
  · exact h1 h
  · exact h2 h
  · exact h3 h
  · exact h4 h

theorem aicvMarketing_spec {domain context personaLower : String} {l : List String}
    (h : aicvMarketing domain context personaLower = some l) :
    l.length = 5 ∧ l.Nodup := by
  unfold aicvMarketing at h
  split_ifs at h <;>
    first
      | exact Option.noConfusion h
      | (injection h with h2; subst h2; exact ⟨rfl, by decide⟩)

theorem aicvHealthcare_spec {domain context : String} {l : List String}
    (h : aicvHealthcare domain context = some l) :
    l.length = 5 ∧ l.Nodup := by
  unfold aicvHealthcare at h
  split_ifs at h <;>
    first
      | exact Option.noConfusion h
      | (injection h with h2; subst h2; exact ⟨rfl, by decide⟩)

theorem aicvEcommerce_spec {domain context : String} {l : List String}
    (h : aicvEcommerce domain context = some l) :
    l.length = 5 ∧ l.Nodup := by
  unfold aicvEcommerce at h
  split_ifs at h <;>
    first
      | exact Option.noConfusion h
      | (injection h with h2; subst h2; exact ⟨rfl, by decide⟩)

theorem aicvFinancial_spec {domain context : String} {l : List String}
    (h : aicvFinancial domain context = some l) :
    l.length = 5 ∧ l.Nodup := by
  unfold aicvFinancial at h
  split_ifs at h <;>
    first
      | exact Option.noConfusion h
      | (injection h with h2; subst h2; exact ⟨rfl, by decide⟩)

theorem aicvDispatch_spec (domain context actionLower persona personaLower : String) :
    (aicvDispatch domain context actionLower persona personaLower).length = 5
    ∧ (aicvDispatch domain context actionLower persona personaLower).Nodup := by
  unfold aicvDispatch
  cases hm : aicvMarketing domain context personaLower with
  | some l => exact aicvMarketing_spec hm
  | none =>
  cases hh : aicvHealthcare domain context with
  | some l => exact aicvHealthcare_spec hh
  | none =>
  cases he : aicvEcommerce domain context with
  | some l => exact aicvEcommerce_spec he
  | none =>
  cases hf : aicvFinancial domain context with
  | some l => exact aicvFinancial_spec hf
  | none =>
  split_ifs
  · exact aicvManageList_spec persona
  · exact ⟨rfl, by decide⟩
  · exact ⟨rfl, by decide⟩
  · exact ⟨rfl, by decide⟩

theorem aicv_spec (domain epicTitle action persona : String) :
    (generateAIContextualValidation domain epicTitle action persona).length = 5
    ∧ (generateAIContextualValidation domain epicTitle action persona).Nodup :=
  aicvDispatch_spec domain
    (jsToLower epicTitle ++ " " ++ jsToLower action ++ " " ++ jsToLower persona)
    (jsToLower action) persona (jsToLower persona)

/-- C3: for every `(domain, epicTitle, action, persona)` input, the
validation-criteria resolution returns between 1 and 7 entries with no two
equal strings (the contextual layer always supplies exactly 5 distinct
entries). -/
theorem c3_validation_bounds :
    ∀ domain epicTitle action persona : String,
      1 ≤ (getStoryValidationCriteria domain epicTitle action persona).length
      ∧ (getStoryValidationCriteria domain epicTitle action persona).length ≤ 7
      ∧ (getStoryValidationCriteria domain epicTitle action persona).Nodup := by
  intro d e a p
  obtain ⟨h5, hnd⟩ := aicv_spec d e a p
  have heq : getStoryValidationCriteria d e a p = generateAIContextualValidation d e a p := by
    unfold getStoryValidationCriteria
    rw [if_pos (by omega)]
  rw [heq]
  exact ⟨by omega, by omega, hnd⟩

/-- C4: at a concrete input reaching the final fallback, the resolution output
is the contextual layer's `baseActions` list, and none of the four baseline
rules of the layered path appears in it — the baseline floor is unreachable. -/
theorem c4_baseline_unreachable :
    getStoryValidationCriteria "generic" "Core Business Functionality"
        "Execute Core Functionality" "User" = baseActions
    ∧ baseValidations.all
        (fun b => !((getStoryValidationCriteria "generic" "Core Business Functionality"
          "Execute Core Functionality" "User").contains b)) = true := by
  refine ⟨by decide, by decide⟩

theorem snd_mem_of_mem_enumFrom {α : Type} :
    ∀ (l : List α) (n : Nat) (p : Nat × α), p ∈ l.enumFrom n → p.2 ∈ l := by
  intro l
  induction l with
  | nil => intro n p h; simp [List.enumFrom] at h
  | cons a t ih =>
    intro n p h
    simp only [List.enumFrom, List.mem_cons] at h
    rcases h with rfl | h
    · simp
    · exact List.mem_cons_of_mem _ (ih _ _ h)

/-- C7: every user story produced by the story generator carries the id of one
of the Epics it was generated from. -/
theorem c7_story_epicId :
    ∀ (epics : List Epic) (domain : String) (s : UserStory),
      s ∈ convertEpicsToUserStories epics domain → s.epicId ∈ epics.map Epic.id := by
  intro epics domain s hs
  unfold convertEpicsToUserStories at hs
  rw [List.mem_flatMap] at hs
  obtain ⟨p, hp, hsp⟩ := hs
  have hep : p.2 ∈ epics := snd_mem_of_mem_enumFrom epics 0 p hp
  simp only [generateUserStoriesFromRequirements, List.mem_map] at hsp
  obtain ⟨q, hq, hfq⟩ := hsp
  rw [← hfq]
  exact List.mem_map_of_mem Epic.id hep

/-- C7 witness: the invariant applied to a concrete one-Epic input. -/
theorem c7_witness :
    oneReqStory.epicId ∈ [oneReqEpic].map Epic.id :=
  c7_story_epicId [oneReqEpic] "generic" oneReqStory (by decide)

theorem finOnboardStep_le (r : String) : (finOnboardStep r).length ≤ 1 := by
  unfold finOnboardStep
  split_ifs <;> simp

theorem finComplianceStep_le (r : String) : (finComplianceStep r).length ≤ 1 := by
  unfold finComplianceStep
  split_ifs <;> simp

theorem foldl_groups_le (step : String → List StoryGroup)
    (hstep : ∀ r, (step r).length ≤ 1) :
    ∀ (reqs : List String) (gs : List StoryGroup),
      (reqs.foldl (fun acc r => acc ++ step r) gs).length ≤ gs.length + reqs.length := by
  intro reqs
  induction reqs with
  | nil => intro gs; simp
  | cons r t ih =>
    intro gs
    simp only [List.foldl]
    have h1 := ih (gs ++ step r)
    have h2 := hstep r
    simp only [List.length_append] at h1
    simp only [List.length_cons]
    omega

theorem finGroups_le (reqs : List String) (et dom : String) :
    (finGroups reqs et dom).length ≤ reqs.length := by
  unfold finGroups
  split_ifs
  · simpa using foldl_groups_le finOnboardStep finOnboardStep_le reqs []
  · simpa using foldl_groups_le finComplianceStep finComplianceStep_le reqs []
  · simp
  · simp

/-- C9 (amended): the story grouper always produces at least one group; the
generic split produces at most 2, but the financial domain-specific groupers
produce one group per matching requirement, so the count is only bounded by
`max 2 (number of requirements)`. -/
theorem c9_group_count_bounds :
    ∀ (requirements : List String) (epicTitle domain : String),
      1 ≤ (groupRequirementsIntoStories requirements epicTitle domain).length
      ∧ (groupRequirementsIntoStories requirements epicTitle domain).length
          ≤ max 2 requirements.length := by
  intro reqs et dom
  have hle := finGroups_le reqs et dom
  unfold groupRequirementsIntoStories
  by_cases h0 : (finGroups reqs et dom).length = 0
  · rw [if_pos h0]
    split_ifs with h1
    · refine ⟨by simp, ?_⟩
      simp only [List.length_cons, List.length_nil]
      omega
    · refine ⟨by simp, ?_⟩
      simp only [List.length_cons, List.length_nil]
      omega
  · rw [if_neg h0]
    exact ⟨by omega, by omega⟩

/-- C9 counterexample: a financial Onboarding Epic whose three requirements
each match a distinct grouping rule yields three story groups and three user
stories — more than the claimed maximum of 2. -/
theorem c9_counterexample :
    2 < (groupRequirementsIntoStories finOnboardEpic.functionalRequirements
          finOnboardEpic.title "financial").length
    ∧ (generateUserStoriesFromRequirements finOnboardEpic "financial" 0).length = 3 :=
  ⟨by decide, by decide⟩

theorem extractLoop_text_long :
    ∀ (lines : List String) (curId curTitle : String) (inReq : Bool) (r : Req),
      r ∈ extractLoop lines curId curTitle inReq → 10 < r.text.length := by
  intro lines
  induction lines with
  | nil => intro curId curTitle inReq r h; simp [extractLoop] at h
  | cons line rest ih =>
    intro curId curTitle inReq r h
    unfold extractLoop at h
    split at h
    · exact ih _ _ _ r h
    · split_ifs at h with h1 h2 h3
      · exact ih _ _ _ r h
      · rcases List.mem_cons.mp h with rfl | h4
        · simpa using h3
        · exact ih _ _ _ r h4
      · exact ih _ _ _ r h
      · exact ih _ _ _ r h

/-- C10: every requirement emitted by structured extraction has a (bullet-
stripped, trimmed) text strictly longer than 10 characters; shorter bullet
lines are silently dropped. -/
theorem c10_bullet_length_gate :
    ∀ (brdText : String) (r : Req),
      r ∈ extractRequirementsFromBrd brdText → 10 < r.text.length := by
  intro b r h
  simp only [extractRequirementsFromBrd] at h
  exact extractLoop_text_long _ "" "" false r h

/-- C10 witness: of the two bullet lines of `shortBulletBrd` only the long one
is extracted, and its text length clears the gate. -/
theorem c10_witness :
    (extractRequirementsFromBrd shortBulletBrd).length = 1
    ∧ 10 < (((extractRequirementsFromBrd shortBulletBrd).headD
          ⟨"", "", "", "", false⟩).text).length :=
  ⟨by decide, c10_bullet_length_gate shortBulletBrd _ (by decide)⟩

/-- C8: document generation reads nothing from the ambient environment (wall
clock, randomness): two invocations on identical inputs under different
environments produce byte-identical HTML. -/
theorem c8_deterministic :
    ∀ (env1 env2 : Env) (project brdText : String) (inputs : BrdInputs)
      (version : Nat) (domain : Option String),
      generateBrdHtml env1 project inputs version domain
        = generateBrdHtml env2 project inputs version domain
      ∧ generateFrdFromBrd env1 brdText project version
        = generateFrdFromBrd env2 brdText project version := by
  intro _ _ _ _ _ _ _
  exact ⟨rfl, rfl⟩

end BA
